import Mathlib

/-!
Verification of the JSW-Paint-Estimator browser client against its
natural-language specification.

The repository is JavaScript (DOM event wiring, fetch calls, and
string-templated HTML).  We shallowly embed the logic the claims are
about: JS numbers are modelled as extended rationals (`JNum`: finite
rationals plus NaN and the two infinities, which is exact for every
computation the claims exercise), parsed JSON bodies as a `JValue`
tree, run-time values flowing through the handlers as `RVal`, and a
thrown `TypeError` as the error of an `Except`.  Presentation-only
markup (the literal HTML around the interpolated values) is elided;
every computation feeding an interpolated value — including the
`toFixed` calls, which throw on non-numbers — is preserved.
-/

namespace PaintEstimator

/-- A JavaScript number: NaN, +Infinity, -Infinity, or a finite value.
Finite values are modelled as exact rationals; every arithmetic step in
the claims (divisions by small integers, scaling by 100, rounding) is
exact in both IEEE doubles and ℚ. -/
inductive JNum where
  | nan
  | posInf
  | negInf
  | fin (q : ℚ)
deriving DecidableEq, Repr

namespace JNum

/-- `x < y` with IEEE semantics: any comparison involving NaN is false. -/
def lt : JNum → JNum → Bool
  | fin a, fin b => a < b
  | fin _, posInf => true
  | negInf, fin _ => true
  | negInf, posInf => true
  | _, _ => false

/-- `x ≤ y` with IEEE semantics: any comparison involving NaN is false. -/
def le : JNum → JNum → Bool
  | fin a, fin b => a ≤ b
  | fin _, posInf => true
  | negInf, fin _ => true
  | negInf, posInf => true
  | posInf, posInf => true
  | negInf, negInf => true
  | _, _ => false

def isNaN : JNum → Bool
  | nan => true
  | _ => false

def isFinite : JNum → Bool
  | fin _ => true
  | _ => false

/-- IEEE multiplication on the extended rationals. -/
def mul : JNum → JNum → JNum
  | nan, _ => nan
  | _, nan => nan
  | fin a, fin b => fin (a * b)
  | posInf, posInf => posInf
  | posInf, negInf => negInf
  | negInf, posInf => negInf
  | negInf, negInf => posInf
  | posInf, fin b => if b = 0 then nan else if 0 < b then posInf else negInf
  | negInf, fin b => if b = 0 then nan else if 0 < b then negInf else posInf
  | fin a, posInf => if a = 0 then nan else if 0 < a then posInf else negInf
  | fin a, negInf => if a = 0 then nan else if 0 < a then negInf else posInf

/-- IEEE division on the extended rationals.  With a single zero
(no signed zero), `a / 0` for `a > 0` is `+Infinity`, `0 / 0` is NaN. -/
def div : JNum → JNum → JNum
  | nan, _ => nan
  | _, nan => nan
  | fin a, fin b =>
      if b = 0 then (if a = 0 then nan else if 0 < a then posInf else negInf)
      else fin (a / b)
  | fin _, posInf => fin 0
  | fin _, negInf => fin 0
  | posInf, fin b => if 0 ≤ b then posInf else negInf
  | negInf, fin b => if 0 ≤ b then negInf else posInf
  | posInf, _ => nan
  | negInf, _ => nan

/-- `Math.round`: round half toward +Infinity. -/
def round : JNum → JNum
  | fin q => fin (⌊q + 1/2⌋ : ℤ)
  | x => x

end JNum

/-- A parsed JSON value (the shape a response body can take).  JSON has
no NaN, no Infinity and no undefined; numbers are finite. -/
inductive JValue where
  | null
  | bool (b : Bool)
  | num (q : ℚ)
  | str (s : String)
  | arr (xs : List JValue)
  | obj (fs : List (String × JValue))

/-- First-match association lookup, as for keys of a parsed JSON object
(none of the bodies in play carries duplicate keys). -/
def jlookup (k : String) : List (String × JValue) → Option JValue
  | [] => none
  | (k', v) :: rest => if k' = k then some v else jlookup k rest

/-- A run-time JavaScript value as it flows through the handlers:
a JSON-derived value, `undefined`, or a computed number (which, unlike
a JSON literal, can be NaN or infinite). -/
inductive RVal where
  | undefined
  | null
  | bool (b : Bool)
  | num (x : JNum)
  | str (s : String)
  | arr (xs : List JValue)
  | obj (fs : List (String × JValue))

/-- Injection of a parsed JSON value into the run-time values. -/
def ofJson : JValue → RVal
  | .null => .null
  | .bool b => .bool b
  | .num q => .num (.fin q)
  | .str s => .str s
  | .arr xs => .arr xs
  | .obj fs => .obj fs

namespace RVal

/-- JavaScript truthiness: `undefined`, `null`, `false`, NaN, `0` and
`""` are falsy; every object and array (including `[]` and `{}`) is
truthy. -/
def truthy : RVal → Bool
  | undefined => false
  | null => false
  | bool b => b
  | num .nan => false
  | num (.fin q) => q ≠ 0
  | num _ => true
  | str s => s ≠ ""
  | arr _ => true
  | obj _ => true

/-- `typeof v === 'number'`. -/
def isNumberType : RVal → Bool
  | num _ => true
  | _ => false

/-- `v === undefined` (used via its negation in
`varianceData.error_percentage !== undefined`). -/
def isUndefined : RVal → Bool
  | undefined => true
  | _ => false

/-- The value is a finite number (the property the spec demands of the
numeric fields of a normalized result). -/
def isFinNum : RVal → Bool
  | num (.fin _) => true
  | _ => false

end RVal

/-- A thrown JavaScript exception (only TypeError arises in this code). -/
inductive JsErr where
  | typeError (msg : String)
deriving DecidableEq, Repr

/-- Property access `v.k`.  Throws TypeError on `undefined`/`null`;
yields `undefined` for an absent key; arrays and strings expose
`length`; other primitives have no own properties of interest. -/
def getProp : RVal → String → Except JsErr RVal
  | .undefined, _ => .error (.typeError "property access on undefined")
  | .null, _ => .error (.typeError "property access on null")
  | .obj fs, k => .ok ((jlookup k fs).elim .undefined ofJson)
  | .arr xs, k => .ok (if k = "length" then .num (.fin xs.length) else .undefined)
  | .str s, k => .ok (if k = "length" then .num (.fin s.length) else .undefined)
  | _, _ => .ok .undefined

/-- Optional-chain access `v?.k`: `undefined` when the receiver is
`undefined` or `null`, plain access otherwise. -/
def getPropOpt (v : RVal) (k : String) : Except JsErr RVal :=
  match v with
  | .undefined => .ok .undefined
  | .null => .ok .undefined
  | _ => getProp v k

/-- Index access `v[i]`. -/
def getIndex : RVal → Nat → Except JsErr RVal
  | .undefined, _ => .error (.typeError "index access on undefined")
  | .null, _ => .error (.typeError "index access on null")
  | .arr xs, i => .ok ((xs.get? i).elim .undefined ofJson)
  | .str s, i => .ok (((s.toList.get? i).map (fun c => RVal.str (String.mk [c]))).getD .undefined)
  | _, _ => .ok .undefined

/-- Lazy JavaScript `a || b`: the left value if truthy, else the
(possibly throwing) right computation. -/
def orElseE (a : RVal) (mb : Except JsErr RVal) : Except JsErr RVal :=
  if a.truthy then .ok a else mb

/-- One character of a simple decimal literal. -/
def isDigitChar (c : Char) : Bool := '0' ≤ c ∧ c ≤ '9'

/-- Parse an unsigned run of digits as a natural number (`none` when
empty or a non-digit appears). -/
def parseDigits : List Char → Option ℕ
  | [] => none
  | cs => cs.foldl (fun acc c =>
      acc.bind (fun n => if isDigitChar c then some (n * 10 + (c.toNat - '0'.toNat)) else none))
      (some 0)

/-- Parse the fractional digits of a decimal literal as a rational in
`[0,1)` (`none` when empty or a non-digit appears). -/
def parseFrac : List Char → Option ℚ
  | [] => none
  | cs => (parseDigits cs).map (fun n => (n : ℚ) / (10 : ℚ) ^ cs.length)

/-- JavaScript `Number(string)` on a trimmed string: `""` is 0,
`Infinity` forms are infinite, otherwise an optionally signed decimal
with optional fraction; anything else is NaN.  (Exponent/hex literal
forms are not produced by any value in play.) -/
def parseJsNumber (s : String) : JNum :=
  let t := s.trim
  if t = "" then .fin 0
  else if t = "Infinity" ∨ t = "+Infinity" then .posInf
  else if t = "-Infinity" then .negInf
  else
    let (sign, cs) : ℚ × List Char :=
      match t.toList with
      | '-' :: rest => (-1, rest)
      | '+' :: rest => (1, rest)
      | cs => (1, cs)
    match cs.splitOn '.' with
    | [intPart] => ((parseDigits intPart).map (fun n => JNum.fin (sign * n))).getD .nan
    | [intPart, fracPart] =>
        match intPart, fracPart with
        | [], [] => .nan
        | [], f => ((parseFrac f).map (fun q => JNum.fin (sign * q))).getD .nan
        | i, [] => ((parseDigits i).map (fun n => JNum.fin (sign * n))).getD .nan
        | i, f =>
            (((parseDigits i).bind (fun n => (parseFrac f).map (fun q =>
              JNum.fin (sign * ((n : ℚ) + q))))).getD .nan)
    | _ => .nan

/-- JavaScript `ToNumber` of an array element as it contributes to the
array's string conversion (`[x].toString()` then `Number`): `null`
joins as the empty string (hence 0 for a singleton), booleans join as
words (hence NaN), numbers round-trip exactly, nested singletons
flatten. -/
def elemToNumber : JValue → JNum
  | .null => .fin 0
  | .bool _ => .nan
  | .num q => .fin q
  | .str s => parseJsNumber s
  | .arr [] => .fin 0
  | .arr [x] => elemToNumber x
  | .arr _ => .nan
  | .obj _ => .nan

/-- JavaScript `ToNumber` coercion of a run-time value (as applied by
arithmetic and relational operators). A multi-element array joins with
commas and therefore never parses as a number. -/
def toNumber : RVal → JNum
  | .undefined => .nan
  | .null => .fin 0
  | .bool b => .fin (if b then 1 else 0)
  | .num x => x
  | .str s => parseJsNumber s
  | .arr [] => .fin 0
  | .arr [x] => elemToNumber x
  | .arr _ => .nan
  | .obj _ => .nan

/-- JavaScript `a * b` on run-time values. -/
def jsMul (a b : RVal) : JNum := (toNumber a).mul (toNumber b)

/-- JavaScript `a / b` on run-time values. -/
def jsDiv (a b : RVal) : JNum := (toNumber a).div (toNumber b)

/-- JavaScript `a > b` (numeric path; both operands in play are numbers
or number-coercible). -/
def jsGt (a b : RVal) : Bool :=
  match a, b with
  | .str s, .str t => t < s
  | _, _ => JNum.lt (toNumber b) (toNumber a)

/-- JavaScript `a <= b`. -/
def jsLe (a b : RVal) : Bool :=
  match a, b with
  | .str s, .str t => ¬ t < s
  | _, _ => JNum.le (toNumber a) (toNumber b)

/-- Strict equality `v === q` against a number literal: true only when
`v` is that finite number (NaN strict-equals nothing). -/
def strictEqNum (v : RVal) (q : ℚ) : Bool :=
  match v with
  | .num (.fin p) => p = q
  | _ => false

/-- Decimal digits of `n`, left-padded with zeros to width `w`. -/
def padDigits (n : ℕ) (w : ℕ) : String :=
  let s := toString n
  String.mk (List.replicate (w - s.length) '0') ++ s

/-- `Number.prototype.toFixed d` for a finite value: round half away
from zero at `d` decimal places and print sign, integer part and
`d` fractional digits. -/
def finToFixed (q : ℚ) (d : ℕ) : String :=
  let m : ℕ := 10 ^ d
  let n : ℕ := (⌊|q| * (m : ℚ) + 1/2⌋).toNat
  let intPart := n / m
  let fracPart := n % m
  let body := toString intPart ++ (if d = 0 then "" else "." ++ padDigits fracPart d)
  (if q < 0 then "-" else "") ++ body

/-- `x.toFixed d` on a JavaScript number. -/
def jnumToFixed : JNum → ℕ → String
  | .nan, _ => "NaN"
  | .posInf, _ => "Infinity"
  | .negInf, _ => "-Infinity"
  | .fin q, d => finToFixed q d

/-- `v.toFixed d` on a run-time value: throws TypeError unless the
receiver is a number. -/
def jsToFixed (v : RVal) (d : ℕ) : Except JsErr String :=
  match v with
  | .num x => .ok (jnumToFixed x d)
  | _ => .error (.typeError "toFixed on a non-number")

/-! ## Manual-mode validator

`validateManualForm` from `src/frontend/js/manual-estimation.js`
(lines 101–115).  Its inputs are the `parseFloat` results for the three
dimension fields, which are JavaScript numbers and can be NaN (e.g. for
an empty field).  The `showError` side effects are presentation and are
elided; the returned boolean is the validation outcome. -/

def validateManualForm (length width height : JNum) : Bool :=
  if length.le (.fin 0) || width.le (.fin 0) || height.le (.fin 0) then
    false
  else if (JNum.fin 100).lt length || (JNum.fin 100).lt width || (JNum.fin 20).lt height then
    false
  else
    true

/-! ## Image-estimation page: upload list and multi-image payload

From `src/frontend/js/image-estimation.js`: the module-level
`uploadedImages` array, the four operations that mutate it, and the
`handleMultiSubmit` payload construction. -/

/-- A selected file, abstracted to the attribute the code consults. -/
structure IFile where
  typ : String
deriving DecidableEq, Repr

/-- JavaScript `s.startsWith(pre)`: `pre` is a prefix of the character
sequence of `s`. -/
def strStartsWith (s pre : String) : Bool := pre.toList.isPrefixOf s.toList

/-- `f.type.startsWith('image/')`. -/
def isImageFile (f : IFile) : Bool := strStartsWith f.typ "image/"

/-- `addMultipleImages` (lines 182–197): keep only image files; reject
an empty batch; reject wholesale a batch that would push the total past
4; otherwise append the whole batch. -/
def addMultipleImages (uploadedImages files : List IFile) : List IFile :=
  let imageFiles := files.filter isImageFile
  if imageFiles.length = 0 then uploadedImages
  else if 4 < uploadedImages.length + imageFiles.length then uploadedImages
  else uploadedImages ++ imageFiles

/-- `removeMultiImage` (lines 233–242): `splice(index, 1)`. -/
def removeMultiImage (uploadedImages : List IFile) (index : ℕ) : List IFile :=
  uploadedImages.eraseIdx index

/-- `displaySingleImage` (lines 135–150): a non-image file is rejected;
an image file replaces the whole list with `[file]` (in the reader
callback). -/
def displaySingleImage (uploadedImages : List IFile) (f : IFile) : List IFile :=
  if isImageFile f then [f] else uploadedImages

/-- `removeSingleImage` (lines 155–161): resets the list to `[]`. -/
def removeSingleImage (_ : List IFile) : List IFile := []

/-- The states of `uploadedImages` reachable from its initial value
`[]` by the four mutating operations of the page. -/
inductive ReachableImages : List IFile → Prop where
  | start : ReachableImages []
  | addMulti (s files) : ReachableImages s → ReachableImages (addMultipleImages s files)
  | removeMulti (s i) : ReachableImages s → ReachableImages (removeMultiImage s i)
  | single (s f) : ReachableImages s → ReachableImages (displaySingleImage s f)
  | removeSingle (s) : ReachableImages s → ReachableImages (removeSingleImage s)

/-- One entry of the `roomData` array built by `handleMultiSubmit`. -/
structure RoomDescriptor where
  room_type : String
  room_name : String
  paint_type : String
  num_coats : ℤ
  include_ceiling : Bool
deriving DecidableEq, Repr

/-- The `roomData` array of `handleMultiSubmit` (lines 296–311): one
descriptor per uploaded image, in order, with the shared form values,
an auto-numbered room name, `num_coats` = `parseInt('2')` = 2 and
`include_ceiling` set to `false`. -/
def multiRoomData (uploadedImages : List IFile) (roomType paintType : String) :
    List RoomDescriptor :=
  uploadedImages.mapIdx (fun index _ =>
    { room_type := roomType
      room_name := "Wall " ++ toString (index + 1)
      paint_type := paintType
      num_coats := 2
      include_ceiling := false })

/-- The multipart payload of the multi-image POST: every uploaded image
under `images`, plus `room_data` (the JSON encoding of the descriptor
array is elided; it is injective on this record). -/
structure MultiPayload where
  images : List IFile
  room_data : List RoomDescriptor

/-- `handleMultiSubmit` (lines 288–311) up to the transport call: with
fewer than 2 uploaded images it warns and returns without a fetch;
otherwise it builds the payload and issues exactly one POST with it. -/
def handleMultiSubmit (uploadedImages : List IFile) (roomType paintType : String) :
    Option MultiPayload :=
  if uploadedImages.length < 2 then none
  else some { images := uploadedImages
              room_data := multiRoomData uploadedImages roomType paintType }

/-! ## Video page: submit handler re-entry

`handleFormSubmit` from the video page (`src/unnamed/part_000`,
lines 139–185).  The synchronous prefix of the handler (guard, payload
build, `showLoading`, starting the fetch) runs to the `await`; nothing
in it disables the submit control or records an in-flight submission,
and `uploadedVideo` is left unchanged, so the state a second quick
submit observes is the same state. -/

structure VFile where
  name : String
deriving DecidableEq, Repr

/-- The observable effect of one synchronous run of `handleFormSubmit`:
the (unchanged) `uploadedVideo` module variable and how many transport
calls the run started (0 on the no-video early return, 1 otherwise). -/
structure VideoSubmitStep where
  uploadedVideo : Option VFile
  fetchesStarted : ℕ
deriving DecidableEq, Repr

def handleFormSubmit (uploadedVideo : Option VFile) : VideoSubmitStep :=
  match uploadedVideo with
  | none => { uploadedVideo := none, fetchesStarted := 0 }
  | some v => { uploadedVideo := some v, fetchesStarted := 1 }

/-- Two invocations of submit in quick succession (the second runs
while the first is awaiting its response): total transport calls. -/
def submitTwice (uploadedVideo : Option VFile) : ℕ :=
  let first := handleFormSubmit uploadedVideo
  let second := handleFormSubmit first.uploadedVideo
  first.fetchesStarted + second.fetchesStarted

/-! ## Image-estimation page: `displayResults`

`displayResults` from `src/frontend/js/image-estimation.js`
(lines 340–439), the response normalization/render step shared by the
single- and multi-image modes.  It is embedded as the straight-line
sequence of the source, split into named blocks for the envelope
unwrap, the dimension resolution, the numeric-field chains, the
area-based dimension fallback, and the render interpolations (the
literal HTML around the interpolated values is elided; every
interpolated computation, including the throwing `toFixed` calls, is
kept, in source order). -/

/-- `const data = response.data || response;` -/
def imgWorking (response : RVal) : Except JsErr RVal := do
  let dv ← getProp response "data"
  pure (if dv.truthy then dv else response)

/-- The dimension resolution (lines 352–362):
`data.rooms && data.rooms.length > 0` selects the first room's
`estimation?.dimensions || estimation || {}`, else
`data.dimensions || {}`.  (`firstRoom.estimation` is read twice in the
source; being side-effect free the second read returns the same value
and is evaluated once here.) -/
def imgDims (data : RVal) : Except JsErr RVal := do
  let rooms ← getProp data "rooms"
  let cond ← (if rooms.truthy then do
      let len ← getProp rooms "length"
      pure (jsGt len (.num (.fin 0)))
    else pure false)
  if cond then do
    let firstRoom ← getIndex rooms 0
    let est ← getProp firstRoom "estimation"
    let estDims ← getPropOpt est "dimensions"
    pure (if estDims.truthy then estDims else if est.truthy then est else .obj [])
  else do
    let dv ← getProp data "dimensions"
    pure (if dv.truthy then dv else .obj [])

/-- `data.total_paintable_area || data.area_calculation?.paintable_area`
(line 367, the binding without a trailing default). -/
def imgPaintableArea (data : RVal) : Except JsErr RVal := do
  let tpa ← getProp data "total_paintable_area"
  orElseE tpa (do
    let ac ← getProp data "area_calculation"
    getPropOpt ac "paintable_area")

/-- The same chain as interpolated in the render, with the trailing
`|| 0` (line 391). -/
def imgPaintableAreaD (data : RVal) : Except JsErr RVal := do
  let tpa ← getProp data "total_paintable_area"
  orElseE tpa (do
    let ac ← getProp data "area_calculation"
    let v ← getPropOpt ac "paintable_area"
    pure (if v.truthy then v else .num (.fin 0)))

/-- `data.total_paint_required || data.product_breakdown?.paint?.quantity || 0`
(line 395). -/
def imgPaintRequiredD (data : RVal) : Except JsErr RVal := do
  let tpr ← getProp data "total_paint_required"
  orElseE tpr (do
    let pb ← getProp data "product_breakdown"
    let paint ← getPropOpt pb "paint"
    let v ← getPropOpt paint "quantity"
    pure (if v.truthy then v else .num (.fin 0)))

/-- `data.total_cost || data.cost_breakdown?.total_cost || 0`
(line 421). -/
def imgTotalCostD (data : RVal) : Except JsErr RVal := do
  let tc ← getProp data "total_cost"
  orElseE tc (do
    let cb ← getProp data "cost_breakdown"
    let v ← getPropOpt cb "total_cost"
    pure (if v.truthy then v else .num (.fin 0)))

/-- The resolved dimensions of the result record. -/
structure ImgRecord where
  length : RVal
  width : RVal
  height : RVal

/-- Lines 364–384: default each dimension with `|| 0`, then, when both
length and width are (strictly) 0 and a paintable area is truthy,
derive square-room dimensions from the area assuming height 10 and one
wall per room (`roomCount = (data.rooms && data.rooms.length) || 1`). -/
def imgComputeDims (data : RVal) : Except JsErr ImgRecord := do
  let dims ← imgDims data
  let l0 ← getProp dims "length"
  let length0 := if l0.truthy then l0 else .num (.fin 0)
  let w0 ← getProp dims "width"
  let width0 := if w0.truthy then w0 else .num (.fin 0)
  let h0 ← getProp dims "height"
  let height0 := if h0.truthy then h0 else .num (.fin 0)
  let pa ← imgPaintableArea data
  if strictEqNum length0 0 && strictEqNum width0 0 && pa.truthy then do
    let rooms ← getProp data "rooms"
    let roomsAndLen ← (if rooms.truthy then getProp rooms "length" else pure rooms)
    let roomCount := if roomsAndLen.truthy then roomsAndLen else .num (.fin 1)
    let wallArea := jsDiv pa roomCount
    let perimeter := (JNum.mul wallArea (.fin 2)).div (.fin 10)
    let estimatedSide := perimeter.div (.fin 2)
    pure { length := .num estimatedSide, width := .num estimatedSide, height := .num (.fin 10) }
  else
    pure { length := length0, width := width0, height := height0 }

/-- The normalized record plus every value interpolated into the
result markup.  `record` holds the resolved dimensions; the three
`...Value` fields hold the defaulted numeric chains the render
interpolates. -/
structure ImgResult where
  record : ImgRecord
  paintableArea : RVal
  paintRequired : RVal
  totalCost : RVal
  paintableAreaText : String
  paintRequiredText : String
  lengthText : String
  widthText : String
  heightText : String
  totalCostText : String

/-- The render interpolations (lines 386–425), in source order:
`toFixed` on each numeric chain (throws on a non-number) and the
`x > 0 ? x.toFixed(1) : 'Auto'` dimension cells. -/
def imgRender (data : RVal) (r : ImgRecord) : Except JsErr ImgResult := do
  let paD ← imgPaintableAreaD data
  let paintableAreaText ← jsToFixed paD 1
  let prD ← imgPaintRequiredD data
  let paintRequiredText ← jsToFixed prD 2
  let lengthText ← (if jsGt r.length (.num (.fin 0)) then jsToFixed r.length 1 else pure "Auto")
  let widthText ← (if jsGt r.width (.num (.fin 0)) then jsToFixed r.width 1 else pure "Auto")
  let heightText ← (if jsGt r.height (.num (.fin 0)) then jsToFixed r.height 1 else pure "Auto")
  let tcD ← imgTotalCostD data
  let totalCostText ← jsToFixed tcD 0
  pure { record := r
         paintableArea := paD
         paintRequired := prD
         totalCost := tcD
         paintableAreaText := paintableAreaText
         paintRequiredText := paintRequiredText
         lengthText := lengthText
         widthText := widthText
         heightText := heightText
         totalCostText := totalCostText }

/-- `displayResults(response)` for the image-estimation page, applied
to a parsed JSON response body. -/
def displayResultsImg (response : JValue) : Except JsErr ImgResult := do
  let resp := ofJson response
  let data ← imgWorking resp
  let record ← imgComputeDims data
  imgRender data record

/-! ## Video page: confidence extraction and banding

The dimension/confidence block of `displayResults` in
`src/unnamed/part_000` (lines 227–318).  The function receives the
already-unwrapped `data` (the caller `handleFormSubmit` computed
`responseData.data || responseData`). -/

/-- `data.dimensions || data.room_dimensions ||
data.dimension_analysis?.dimensions || {}` (line 228). -/
def videoDims (data : RVal) : Except JsErr RVal := do
  let d1 ← getProp data "dimensions"
  orElseE d1 (do
    let d2 ← getProp data "room_dimensions"
    orElseE d2 (do
      let da ← getProp data "dimension_analysis"
      let d3 ← getPropOpt da "dimensions"
      pure (if d3.truthy then d3 else .obj [])))

/-- The confidence computation of the video `displayResults`
(lines 246–314): extraction with the NaN/non-number default
(0.90 with a truthy `vision_api_result?.used`, else 0.70), the rounded
percentage, and the two banding branches — the four-band mapping when
`dimensions.variance.error_percentage` is not `undefined`, else the
percentage bands. -/
structure ConfResult where
  percent : JNum
  level : String
  color : String
  expectedError : String
  dimensionConfidence : RVal
  detectionConfidence : RVal
  varianceScore : RVal

def videoConfidence (data : RVal) : Except JsErr ConfResult := do
  let dims ← videoDims data
  let c1 ← getProp data "confidence"
  let confidence ← orElseE c1 (do
    let c2 ← getProp data "detection_confidence"
    pure (if c2.truthy then c2 else .obj []))
  let oc1 ← getProp confidence "overall_confidence"
  let oc0 := if oc1.truthy then oc1 else (if confidence.truthy then confidence else .num (.fin 0))
  let overallConfidence ←
    (if (toNumber oc0).isNaN || ¬ oc0.isNumberType then do
       let vres ← getProp data "vision_api_result"
       let used ← getPropOpt vres "used"
       pure (if used.truthy then RVal.num (.fin (9/10)) else RVal.num (.fin (7/10)))
     else pure oc0)
  let dc ← getProp confidence "dimension_confidence"
  let dimensionConfidence := if dc.truthy then dc else overallConfidence
  let dtc ← getProp confidence "detection_confidence"
  let detectionConfidence := if dtc.truthy then dtc else overallConfidence
  let vs ← getProp confidence "variance_score"
  let varianceScore := if vs.truthy then vs else overallConfidence
  let confidencePercent := JNum.round (jsMul overallConfidence (.num (.fin 100)))
  let vd ← getProp dims "variance"
  let varianceData := if vd.truthy then vd else .obj []
  let ep ← getProp varianceData "error_percentage"
  if ep.isUndefined then
    let (level, color, expectedError) :=
      if JNum.le (.fin 90) confidencePercent then ("Very High", "#10b981", "±5%")
      else if JNum.le (.fin 75) confidencePercent then ("High", "#3b82f6", "±10%")
      else if JNum.le (.fin 60) confidencePercent then ("Medium", "#eab308", "±15%")
      else if JNum.le (.fin 40) confidencePercent then ("Low", "#f97316", "±20%")
      else ("Very Low", "#ef4444", "±30%")
    pure { percent := confidencePercent, level := level, color := color
           expectedError := expectedError
           dimensionConfidence := dimensionConfidence
           detectionConfidence := detectionConfidence
           varianceScore := varianceScore }
  else do
    let s ← jsToFixed ep 1
    let expectedError := "±" ++ s ++ "%"
    let (level, color) :=
      if jsLe ep (.num (.fin 5)) then ("Excellent", "#10b981")
      else if jsLe ep (.num (.fin 8)) then ("Good", "#3b82f6")
      else if jsLe ep (.num (.fin 15)) then ("Medium", "#eab308")
      else ("Low", "#ef4444")
    pure { percent := confidencePercent, level := level, color := color
           expectedError := expectedError
           dimensionConfidence := dimensionConfidence
           detectionConfidence := detectionConfidence
           varianceScore := varianceScore }

/-- The confidence block's resolution of the variance source
`dimensions.variance.error_percentage` (the dimensions chain of
line 228, then `dimensions.variance || {}` and the `error_percentage`
read of lines 275–277), factored out verbatim so that the
variance-precedence claim can be stated over arbitrary response
bodies.  Like every step of the block it is side-effect free, so the
factored recomputation returns the same value the inline reads see. -/
def videoErrorPercentage (data : RVal) : Except JsErr RVal := do
  let dims ← videoDims data
  let vd ← getProp dims "variance"
  let varianceData := if vd.truthy then vd else .obj []
  getProp varianceData "error_percentage"

/-! ## Blueprint page: `displayFloorPlanResults`

`displayFloorPlanResults` from `src/unnamed/part_001` (lines 631–765).
The render outcome is either the warning-only early return (no room
table, no totals, no cost) or the full rendering with its per-room rows
and totals. -/

/-- One row of the room-by-room table (lines 695–711), with every
interpolated computation kept: the `|| 0`-defaulted areas and paint
litres go through `toFixed` (throwing on non-numbers); `cost` is
rendered with `toLocaleString`, which exists on every value and cannot
throw, so the raw value is kept. -/
structure FPRow where
  name : RVal
  dimLength : RVal
  dimWidth : RVal
  floorAreaText : String
  paintableAreaText : String
  numDoors : RVal
  numWindows : RVal
  paintLitersText : String
  cost : RVal

/-- The per-room extraction and interpolations, in source order.
Throws when `room` is `null` (the unguarded `room.areas` access). -/
def fpRow (room : RVal) : Except JsErr FPRow := do
  let areas ← getProp room "areas"
  let fa ← getPropOpt areas "floor_area"
  let floorArea := if fa.truthy then fa else .num (.fin 0)
  let pa ← getPropOpt areas "paintable_area"
  let paintableArea := if pa.truthy then pa else .num (.fin 0)
  let p ← getProp room "paint"
  let pl ← getPropOpt p "liters"
  let paintLiters := if pl.truthy then pl else .num (.fin 0)
  let tc ← getProp room "total_cost"
  let cost ← orElseE tc (do
    let c ← getProp room "cost"
    pure (if c.truthy then c else .num (.fin 0)))
  let dimsr ← getProp room "dimensions"
  let dl ← getPropOpt dimsr "length"
  let dw ← getPropOpt dimsr "width"
  let name ← getProp room "name"
  let floorAreaText ← jsToFixed floorArea 1
  let paintableAreaText ← jsToFixed paintableArea 1
  let nd ← getProp room "num_doors"
  let nw ← getProp room "num_windows"
  let paintLitersText ← jsToFixed paintLiters 2
  pure { name := name
         dimLength := if dl.truthy then dl else .str "?"
         dimWidth := if dw.truthy then dw else .str "?"
         floorAreaText := floorAreaText
         paintableAreaText := paintableAreaText
         numDoors := nd
         numWindows := nw
         paintLitersText := paintLitersText
         cost := cost }

/-- The totals summary and extraction-summary values (the
`toLocaleString`-rendered totals are total and kept raw; the paint
total goes through `toFixed(1)`). -/
structure FPTotals where
  totalRooms : RVal
  dimsFound : RVal
  textRegions : RVal
  totalFloorArea : RVal
  totalPaintableArea : RVal
  totalPaintText : String
  totalCost : RVal

/-- The two render outcomes: the warning-only early return, or the
full rendering (rows is empty when the redundant second guard
`rooms && rooms.length > 0` fails, in which case the table section is
skipped but the totals still render). -/
inductive FPRender where
  | warning
  | table (rows : List FPRow) (totals : FPTotals)

def displayFloorPlanResults (data : RVal) : Except JsErr FPRender := do
  let r ← getProp data "rooms"
  let rooms := if r.truthy then r else .arr []
  let tr ← getProp data "total_rooms"
  let total_rooms := if tr.truthy then tr else .num (.fin 0)
  let tfa ← getProp data "total_floor_area"
  let total_floor_area := if tfa.truthy then tfa else .num (.fin 0)
  let tpaR ← getProp data "total_paintable_area"
  let total_paintable_area := if tpaR.truthy then tpaR else .num (.fin 0)
  let tpr1 ← getProp data "total_paint_required_liters"
  let total_paint ← orElseE tpr1 (do
    let tpr2 ← getProp data "total_paint_required"
    pure (if tpr2.truthy then tpr2 else .num (.fin 0)))
  let tcR ← getProp data "total_cost"
  let total_cost := if tcR.truthy then tcR else .num (.fin 0)
  let om ← getProp data "ocr_metadata"
  let ocr := if om.truthy then om else .obj []
  let len ← getProp rooms "length"
  if ¬ rooms.truthy || strictEqNum len 0 then
    pure .warning
  else do
    let df ← getProp ocr "dimensions_found"
    let dimsFound := if df.truthy then df else .str "N/A"
    let tg ← getProp ocr "text_regions"
    let textRegions := if tg.truthy then tg else .str "N/A"
    let rows ← (if rooms.truthy && jsGt len (.num (.fin 0)) then
        match rooms with
        | .arr xs => xs.mapM (fun rj => fpRow (ofJson rj))
        | _ => .error (.typeError "rooms.forEach is not a function")
      else pure [])
    let totalPaintText ← jsToFixed total_paint 1
    pure (.table rows
      { totalRooms := total_rooms
        dimsFound := dimsFound
        textRegions := textRegions
        totalFloorArea := total_floor_area
        totalPaintableArea := total_paintable_area
        totalPaintText := totalPaintText
        totalCost := total_cost })

/-- The spec-side percentage banding of claims C3/C4, stated on the
rounded integer percentage: the ordered bands Excellent/Very High ≥90,
High ≥75, Medium ≥60, Low ≥40, Very Low <40, each carrying its fixed
display color and expected-error string.  (Named from the spec's band
table, to be compared with the behaviour of `videoConfidence`.) -/
def specPercentBand (p : ℤ) : String × String × String :=
  if 90 ≤ p then ("Very High", "#10b981", "±5%")
  else if 75 ≤ p then ("High", "#3b82f6", "±10%")
  else if 60 ≤ p then ("Medium", "#eab308", "±15%")
  else if 40 ≤ p then ("Low", "#f97316", "±20%")
  else ("Very Low", "#ef4444", "±30%")

/-- The spec-side four-band variance mapping of claim C4 (error ≤5%
Excellent, ≤8% Good, ≤15% Medium, else Low), with the fixed colors. -/
def specVarianceBand (e : ℚ) : String × String :=
  if e ≤ 5 then ("Excellent", "#10b981")
  else if e ≤ 8 then ("Good", "#3b82f6")
  else if e ≤ 15 then ("Medium", "#eab308")
  else ("Low", "#ef4444")

/-- A video response body carrying only
`confidence.overall_confidence = q`. -/
def mkVideoConfidence (q : ℚ) : RVal :=
  .obj [("confidence", .obj [("overall_confidence", .num q)])]

/-- A video response body carrying `confidence.overall_confidence = q`
and `dimensions.variance.error_percentage = e`. -/
def mkVideoVariance (q e : ℚ) : RVal :=
  .obj [("confidence", .obj [("overall_confidence", .num q)]),
        ("dimensions", .obj [("variance", .obj [("error_percentage", .num e)])])]

/-! ## Well-shapedness predicates for the normalization totality claim

The amended totality statement restricts response bodies to the
documented response shapes: consulted numeric fields are numbers or
absent, `rooms` (when present) is null or an array whose first entry
is not null, and the resolved dimensions object carries
numbers-or-absent dimension fields. -/

/-- The key is absent or bound to a JSON number. -/
def numOrAbsent (fs : List (String × JValue)) (k : String) : Prop :=
  match jlookup k fs with
  | none => True
  | some (.num _) => True
  | _ => False

/-- When `k1` is bound to an object, its `k2` is a number or absent
(any non-object `k1` is harmless: the optional chain yields
`undefined`). -/
def nestNumOrAbsent (fs : List (String × JValue)) (k1 k2 : String) : Prop :=
  match jlookup k1 fs with
  | some (.obj g) => numOrAbsent g k2
  | _ => True

/-- The two-level variant for `k1?.k2?.k3`. -/
def nest2NumOrAbsent (fs : List (String × JValue)) (k1 k2 k3 : String) : Prop :=
  match jlookup k1 fs with
  | some (.obj g) =>
      match jlookup k2 g with
      | some (.obj h) => numOrAbsent h k3
      | _ => True
  | _ => True

/-- `rooms` is absent, null, or an array whose first entry is not null
(the unguarded `firstRoom.estimation` access throws on a null entry). -/
def roomsOK (ds : List (String × JValue)) : Prop :=
  match jlookup "rooms" ds with
  | none => True
  | some .null => True
  | some (.arr []) => True
  | some (.arr (r :: _)) => r ≠ JValue.null
  | some _ => False

/-- When the resolved dimensions value is an object, its three
dimension fields are numbers or absent (a non-object resolution always
yields numeric-or-undefined field reads). -/
def dimsSourceOK (v : RVal) : Prop :=
  match v with
  | .obj g => numOrAbsent g "length" ∧ numOrAbsent g "width" ∧ numOrAbsent g "height"
  | _ => True

/-- A field read that is `undefined` or a finite number. -/
def IsNumOrUndefined (v : RVal) : Prop := v = .undefined ∨ ∃ q, v = .num (.fin q)

/-! ## Shared helper lemmas -/

@[simp] lemma except_bind_ok {ε α β : Type} (a : α) (f : α → Except ε β) :
    (Except.ok a : Except ε α) >>= f = f a := rfl

@[simp] lemma except_bind_error {ε α β : Type} (e : ε) (f : α → Except ε β) :
    (Except.error e : Except ε α) >>= f = Except.error e := rfl

@[simp] lemma except_pure_eq_ok {ε α : Type} (a : α) :
    (pure a : Except ε α) = Except.ok a := rfl

@[simp] lemma orElseE_ok (a b : RVal) :
    orElseE a (.ok b) = .ok (if a.truthy then a else b) := by
  unfold orElseE
  split <;> simp_all

@[simp] lemma getProp_obj (fs : List (String × JValue)) (k : String) :
    getProp (RVal.obj fs) k = .ok ((jlookup k fs).elim .undefined ofJson) := rfl

lemma truthy_defined (v : RVal) (h : v.truthy = true) : v ≠ .undefined ∧ v ≠ .null := by
  cases v <;> simp_all [RVal.truthy]

lemma ifDefault_defined (v : RVal) :
    (if v.truthy then v else RVal.obj []) ≠ .undefined ∧
    (if v.truthy then v else RVal.obj []) ≠ .null := by
  by_cases hv : v.truthy = true
  · simpa [hv] using truthy_defined v hv
  · simp [hv]

lemma ifChain2_defined (a b : RVal) :
    (if a.truthy then a else if b.truthy then b else RVal.obj []) ≠ .undefined ∧
    (if a.truthy then a else if b.truthy then b else RVal.obj []) ≠ .null := by
  by_cases ha : a.truthy = true
  · simpa [ha] using truthy_defined a ha
  · simpa [ha] using ifDefault_defined b

lemma numOrAbsent_elim {fs : List (String × JValue)} {k : String} (h : numOrAbsent fs k) :
    IsNumOrUndefined ((jlookup k fs).elim RVal.undefined ofJson) := by
  unfold numOrAbsent at h
  cases hk : jlookup k fs with
  | none => exact Or.inl rfl
  | some v =>
      rw [hk] at h
      cases v <;> simp_all [ofJson, IsNumOrUndefined]

lemma isNumOrUndefined_default0 {v : RVal} (h : IsNumOrUndefined v) :
    (if v.truthy then v else RVal.num (.fin 0)).isFinNum = true := by
  rcases h with h | ⟨q, h⟩ <;> subst h
  · simp [RVal.truthy, RVal.isFinNum]
  · split <;> simp [RVal.isFinNum]

lemma isNumOrUndefined_truthy_fin {v : RVal} (h : IsNumOrUndefined v) (ht : v.truthy = true) :
    v.isFinNum = true := by
  rcases h with h | ⟨q, h⟩ <;> subst h
  · simp [RVal.truthy] at ht
  · simp [RVal.isFinNum]

lemma getPropOpt_ok (v : RVal) (k : String) : ∃ w, getPropOpt v k = .ok w := by
  cases v <;> simp [getPropOpt, getProp]

lemma imgDims_ok (ds : List (String × JValue)) (h : roomsOK ds) :
    ∃ d, imgDims (RVal.obj ds) = .ok d ∧ d ≠ .undefined ∧ d ≠ .null := by
  unfold roomsOK at h
  cases hk : jlookup "rooms" ds with
  | none =>
      refine ⟨if ((jlookup "dimensions" ds).elim RVal.undefined ofJson).truthy then
          (jlookup "dimensions" ds).elim RVal.undefined ofJson else RVal.obj [],
        ?_, (ifDefault_defined _).1, (ifDefault_defined _).2⟩
      simp [imgDims, hk, ofJson, RVal.truthy]
  | some v =>
      rw [hk] at h
      cases v with
      | null =>
          refine ⟨if ((jlookup "dimensions" ds).elim RVal.undefined ofJson).truthy then
              (jlookup "dimensions" ds).elim RVal.undefined ofJson else RVal.obj [],
            ?_, (ifDefault_defined _).1, (ifDefault_defined _).2⟩
          simp [imgDims, hk, ofJson, RVal.truthy]
      | bool b => exact absurd h (by simp)
      | num q => exact absurd h (by simp)
      | str s => exact absurd h (by simp)
      | obj g => exact absurd h (by simp)
      | arr xs =>
          cases xs with
          | nil =>
              refine ⟨if ((jlookup "dimensions" ds).elim RVal.undefined ofJson).truthy then
                  (jlookup "dimensions" ds).elim RVal.undefined ofJson else RVal.obj [],
                ?_, (ifDefault_defined _).1, (ifDefault_defined _).2⟩
              simp [imgDims, hk, ofJson, RVal.truthy, getProp, jsGt, toNumber, JNum.lt]
          | cons r rest =>
              have hr : r ≠ JValue.null := h
              have hcond : (0:ℚ) < (rest.length : ℚ) + 1 := by positivity
              cases r with
              | null => exact absurd rfl hr
              | bool b =>
                  refine ⟨RVal.obj [], ?_, by simp, by simp⟩
                  simp [imgDims, hk, ofJson, RVal.truthy, getProp, getPropOpt, jsGt,
                    toNumber, JNum.lt, getIndex, hcond]
              | num q =>
                  refine ⟨RVal.obj [], ?_, by simp, by simp⟩
                  simp [imgDims, hk, ofJson, RVal.truthy, getProp, getPropOpt, jsGt,
                    toNumber, JNum.lt, getIndex, hcond]
              | str s2 =>
                  refine ⟨RVal.obj [], ?_, by simp, by simp⟩
                  simp [imgDims, hk, ofJson, RVal.truthy, getProp, getPropOpt, jsGt,
                    toNumber, JNum.lt, getIndex, hcond]
              | arr ys =>
                  refine ⟨RVal.obj [], ?_, by simp, by simp⟩
                  simp [imgDims, hk, ofJson, RVal.truthy, getProp, getPropOpt, jsGt,
                    toNumber, JNum.lt, getIndex, hcond]
              | obj rf =>
                  obtain ⟨ed, hed⟩ :=
                    getPropOpt_ok ((jlookup "estimation" rf).elim RVal.undefined ofJson) "dimensions"
                  refine ⟨if ed.truthy then ed
                      else if ((jlookup "estimation" rf).elim RVal.undefined ofJson).truthy then
                        (jlookup "estimation" rf).elim RVal.undefined ofJson
                      else RVal.obj [],
                    ?_, (ifChain2_defined _ _).1, (ifChain2_defined _ _).2⟩
                  simp [imgDims, hk, ofJson, RVal.truthy, getProp, jsGt,
                    toNumber, JNum.lt, getIndex, hcond, hed]


lemma truthy_undefined : RVal.undefined.truthy = false := rfl

lemma truthy_null : RVal.null.truthy = false := rfl

lemma getPropOpt_undefined_of_nonobj (v : RVal) (k : String) (hk : k ≠ "length")
    (hobj : ∀ g, v ≠ .obj g) : getPropOpt v k = .ok .undefined := by
  cases v <;> simp_all [getPropOpt, getProp]

lemma imgPaintableArea_ok (ds : List (String × JValue))
    (h1 : numOrAbsent ds "total_paintable_area")
    (h2 : nestNumOrAbsent ds "area_calculation" "paintable_area") :
    ∃ v, imgPaintableArea (RVal.obj ds) = .ok v ∧ IsNumOrUndefined v := by
  have htpa := numOrAbsent_elim h1
  by_cases ht : ((jlookup "total_paintable_area" ds).elim RVal.undefined ofJson).truthy = true
  · refine ⟨_, ?_, htpa⟩
    simp [imgPaintableArea, orElseE, ht]
  · unfold nestNumOrAbsent at h2
    cases hac : jlookup "area_calculation" ds with
    | none =>
        refine ⟨RVal.undefined, ?_, Or.inl rfl⟩
        simp [imgPaintableArea, orElseE, ht, hac, ofJson, getPropOpt]
    | some v =>
        rw [hac] at h2
        cases v with
        | obj g =>
            refine ⟨_, ?_, numOrAbsent_elim h2⟩
            simp [imgPaintableArea, orElseE, ht, hac, ofJson, getPropOpt]
        | null =>
            refine ⟨RVal.undefined, ?_, Or.inl rfl⟩
            simp [imgPaintableArea, orElseE, ht, hac, ofJson, getPropOpt]
        | bool b =>
            refine ⟨RVal.undefined, ?_, Or.inl rfl⟩
            simp [imgPaintableArea, orElseE, ht, hac, ofJson, getPropOpt, getProp]
        | num q =>
            refine ⟨RVal.undefined, ?_, Or.inl rfl⟩
            simp [imgPaintableArea, orElseE, ht, hac, ofJson, getPropOpt, getProp]
        | str s =>
            refine ⟨RVal.undefined, ?_, Or.inl rfl⟩
            simp [imgPaintableArea, orElseE, ht, hac, ofJson, getPropOpt, getProp]
        | arr xs =>
            refine ⟨RVal.undefined, ?_, Or.inl rfl⟩
            simp [imgPaintableArea, orElseE, ht, hac, ofJson, getPropOpt, getProp]

lemma imgPaintableAreaD_fin (ds : List (String × JValue))
    (h1 : numOrAbsent ds "total_paintable_area")
    (h2 : nestNumOrAbsent ds "area_calculation" "paintable_area") :
    ∃ v, imgPaintableAreaD (RVal.obj ds) = .ok v ∧ v.isFinNum = true := by
  have htpa := numOrAbsent_elim h1
  by_cases ht : ((jlookup "total_paintable_area" ds).elim RVal.undefined ofJson).truthy = true
  · refine ⟨_, ?_, isNumOrUndefined_truthy_fin htpa ht⟩
    simp [imgPaintableAreaD, orElseE, ht]
  · unfold nestNumOrAbsent at h2
    cases hac : jlookup "area_calculation" ds with
    | none =>
        refine ⟨RVal.num (.fin 0), ?_, by simp [RVal.isFinNum]⟩
        simp [imgPaintableAreaD, orElseE, ht, hac, ofJson, getPropOpt, truthy_undefined]
    | some v =>
        rw [hac] at h2
        cases v with
        | obj g =>
            refine ⟨_, ?_, isNumOrUndefined_default0 (numOrAbsent_elim h2)⟩
            simp [imgPaintableAreaD, orElseE, ht, hac, ofJson, getPropOpt]
        | null =>
            refine ⟨RVal.num (.fin 0), ?_, by simp [RVal.isFinNum]⟩
            simp [imgPaintableAreaD, orElseE, ht, hac, ofJson, getPropOpt, truthy_undefined]
        | bool b =>
            refine ⟨RVal.num (.fin 0), ?_, by simp [RVal.isFinNum]⟩
            simp [imgPaintableAreaD, orElseE, ht, hac, ofJson, getPropOpt, getProp, truthy_undefined]
        | num q =>
            refine ⟨RVal.num (.fin 0), ?_, by simp [RVal.isFinNum]⟩
            simp [imgPaintableAreaD, orElseE, ht, hac, ofJson, getPropOpt, getProp, truthy_undefined]
        | str s =>
            refine ⟨RVal.num (.fin 0), ?_, by simp [RVal.isFinNum]⟩
            simp [imgPaintableAreaD, orElseE, ht, hac, ofJson, getPropOpt, getProp, truthy_undefined]
        | arr xs =>
            refine ⟨RVal.num (.fin 0), ?_, by simp [RVal.isFinNum]⟩
            simp [imgPaintableAreaD, orElseE, ht, hac, ofJson, getPropOpt, getProp, truthy_undefined]

lemma imgTotalCostD_fin (ds : List (String × JValue))
    (h1 : numOrAbsent ds "total_cost")
    (h2 : nestNumOrAbsent ds "cost_breakdown" "total_cost") :
    ∃ v, imgTotalCostD (RVal.obj ds) = .ok v ∧ v.isFinNum = true := by
  have htc := numOrAbsent_elim h1
  by_cases ht : ((jlookup "total_cost" ds).elim RVal.undefined ofJson).truthy = true
  · refine ⟨_, ?_, isNumOrUndefined_truthy_fin htc ht⟩
    simp [imgTotalCostD, orElseE, ht]
  · unfold nestNumOrAbsent at h2
    cases hac : jlookup "cost_breakdown" ds with
    | none =>
        refine ⟨RVal.num (.fin 0), ?_, by simp [RVal.isFinNum]⟩
        simp [imgTotalCostD, orElseE, ht, hac, ofJson, getPropOpt, truthy_undefined]
    | some v =>
        rw [hac] at h2
        cases v with
        | obj g =>
            refine ⟨_, ?_, isNumOrUndefined_default0 (numOrAbsent_elim h2)⟩
            simp [imgTotalCostD, orElseE, ht, hac, ofJson, getPropOpt]
        | null =>
            refine ⟨RVal.num (.fin 0), ?_, by simp [RVal.isFinNum]⟩
            simp [imgTotalCostD, orElseE, ht, hac, ofJson, getPropOpt, truthy_undefined]
        | bool b =>
            refine ⟨RVal.num (.fin 0), ?_, by simp [RVal.isFinNum]⟩
            simp [imgTotalCostD, orElseE, ht, hac, ofJson, getPropOpt, getProp, truthy_undefined]
        | num q =>
            refine ⟨RVal.num (.fin 0), ?_, by simp [RVal.isFinNum]⟩
            simp [imgTotalCostD, orElseE, ht, hac, ofJson, getPropOpt, getProp, truthy_undefined]
        | str s =>
            refine ⟨RVal.num (.fin 0), ?_, by simp [RVal.isFinNum]⟩
            simp [imgTotalCostD, orElseE, ht, hac, ofJson, getPropOpt, getProp, truthy_undefined]
        | arr xs =>
            refine ⟨RVal.num (.fin 0), ?_, by simp [RVal.isFinNum]⟩
            simp [imgTotalCostD, orElseE, ht, hac, ofJson, getPropOpt, getProp, truthy_undefined]

lemma imgPaintRequiredD_fin (ds : List (String × JValue))
    (h1 : numOrAbsent ds "total_paint_required")
    (h2 : nest2NumOrAbsent ds "product_breakdown" "paint" "quantity") :
    ∃ v, imgPaintRequiredD (RVal.obj ds) = .ok v ∧ v.isFinNum = true := by
  have htpr := numOrAbsent_elim h1
  by_cases ht : ((jlookup "total_paint_required" ds).elim RVal.undefined ofJson).truthy = true
  · refine ⟨_, ?_, isNumOrUndefined_truthy_fin htpr ht⟩
    simp [imgPaintRequiredD, orElseE, ht]
  · unfold nest2NumOrAbsent at h2
    cases hpb : jlookup "product_breakdown" ds with
    | none =>
        refine ⟨RVal.num (.fin 0), ?_, by simp [RVal.isFinNum]⟩
        simp [imgPaintRequiredD, orElseE, ht, hpb, ofJson, getPropOpt, truthy_undefined]
    | some v =>
        rw [hpb] at h2
        cases v with
        | obj g =>
            have h2g : (match jlookup "paint" g with
                | some (JValue.obj h) => numOrAbsent h "quantity"
                | _ => True) := h2
            cases hp : jlookup "paint" g with
            | none =>
                refine ⟨RVal.num (.fin 0), ?_, by simp [RVal.isFinNum]⟩
                simp [imgPaintRequiredD, orElseE, ht, hpb, hp, ofJson, getPropOpt, truthy_undefined]
            | some w =>
                rw [hp] at h2g
                cases w with
                | obj g2 =>
                    refine ⟨_, ?_, isNumOrUndefined_default0 (numOrAbsent_elim h2g)⟩
                    simp [imgPaintRequiredD, orElseE, ht, hpb, hp, ofJson, getPropOpt]
                | null =>
                    refine ⟨RVal.num (.fin 0), ?_, by simp [RVal.isFinNum]⟩
                    simp [imgPaintRequiredD, orElseE, ht, hpb, hp, ofJson, getPropOpt, truthy_undefined]
                | bool b =>
                    refine ⟨RVal.num (.fin 0), ?_, by simp [RVal.isFinNum]⟩
                    simp [imgPaintRequiredD, orElseE, ht, hpb, hp, ofJson, getPropOpt, getProp,
                      truthy_undefined]
                | num q =>
                    refine ⟨RVal.num (.fin 0), ?_, by simp [RVal.isFinNum]⟩
                    simp [imgPaintRequiredD, orElseE, ht, hpb, hp, ofJson, getPropOpt, getProp,
                      truthy_undefined]
                | str s =>
                    refine ⟨RVal.num (.fin 0), ?_, by simp [RVal.isFinNum]⟩
                    simp [imgPaintRequiredD, orElseE, ht, hpb, hp, ofJson, getPropOpt, getProp,
                      truthy_undefined]
                | arr xs =>
                    refine ⟨RVal.num (.fin 0), ?_, by simp [RVal.isFinNum]⟩
                    simp [imgPaintRequiredD, orElseE, ht, hpb, hp, ofJson, getPropOpt, getProp,
                      truthy_undefined]
        | null =>
            refine ⟨RVal.num (.fin 0), ?_, by simp [RVal.isFinNum]⟩
            simp [imgPaintRequiredD, orElseE, ht, hpb, ofJson, getPropOpt, truthy_undefined]
        | bool b =>
            refine ⟨RVal.num (.fin 0), ?_, by simp [RVal.isFinNum]⟩
            simp [imgPaintRequiredD, orElseE, ht, hpb, ofJson, getPropOpt, getProp, truthy_undefined]
        | num q =>
            refine ⟨RVal.num (.fin 0), ?_, by simp [RVal.isFinNum]⟩
            simp [imgPaintRequiredD, orElseE, ht, hpb, ofJson, getPropOpt, getProp, truthy_undefined]
        | str s =>
            refine ⟨RVal.num (.fin 0), ?_, by simp [RVal.isFinNum]⟩
            simp [imgPaintRequiredD, orElseE, ht, hpb, ofJson, getPropOpt, getProp, truthy_undefined]
        | arr xs =>
            refine ⟨RVal.num (.fin 0), ?_, by simp [RVal.isFinNum]⟩
            simp [imgPaintRequiredD, orElseE, ht, hpb, ofJson, getPropOpt, getProp, truthy_undefined]


lemma dims_field_numOrUndefined (d : RVal) (hu : d ≠ .undefined) (hn : d ≠ .null)
    (hsrc : dimsSourceOK d) (k : String) (hk : k = "length" ∨ k = "width" ∨ k = "height") :
    ∃ v, getProp d k = .ok v ∧ IsNumOrUndefined v := by
  cases d with
  | undefined => exact absurd rfl hu
  | null => exact absurd rfl hn
  | bool b => exact ⟨.undefined, rfl, Or.inl rfl⟩
  | num x => exact ⟨.undefined, rfl, Or.inl rfl⟩
  | str s =>
      by_cases hl : k = "length"
      · subst hl
        exact ⟨.num (.fin s.length), by simp [getProp], Or.inr ⟨s.length, rfl⟩⟩
      · exact ⟨.undefined, by simp [getProp, hl], Or.inl rfl⟩
  | arr xs =>
      by_cases hl : k = "length"
      · subst hl
        exact ⟨.num (.fin xs.length), by simp [getProp], Or.inr ⟨xs.length, rfl⟩⟩
      · exact ⟨.undefined, by simp [getProp, hl], Or.inl rfl⟩
  | obj g =>
      obtain ⟨h1, h2, h3⟩ : numOrAbsent g "length" ∧ numOrAbsent g "width" ∧
          numOrAbsent g "height" := hsrc
      rcases hk with rfl | rfl | rfl
      · exact ⟨_, rfl, numOrAbsent_elim h1⟩
      · exact ⟨_, rfl, numOrAbsent_elim h2⟩
      · exact ⟨_, rfl, numOrAbsent_elim h3⟩

lemma truthy_num_fin (q : ℚ) : (RVal.num (.fin q)).truthy = !decide (q = 0) := by
  simp [RVal.truthy]

lemma truthy_arrv (xs : List JValue) : (RVal.arr xs).truthy = true := rfl

lemma getProp_arrv (xs : List JValue) (k : String) :
    getProp (RVal.arr xs) k = .ok (if k = "length" then RVal.num (.fin xs.length) else .undefined) :=
  rfl

lemma imgComputeDims_ok (ds : List (String × JValue))
    (hrooms : roomsOK ds)
    (hdims : ∀ d, imgDims (RVal.obj ds) = .ok d → dimsSourceOK d)
    (hpa1 : numOrAbsent ds "total_paintable_area")
    (hpa2 : nestNumOrAbsent ds "area_calculation" "paintable_area") :
    ∃ r, imgComputeDims (RVal.obj ds) = .ok r ∧
      r.length.isFinNum = true ∧ r.width.isFinNum = true ∧ r.height.isFinNum = true := by
  obtain ⟨d, hd, hdu, hdn⟩ := imgDims_ok ds hrooms
  have hsrc := hdims d hd
  obtain ⟨vl, hvl, hvlI⟩ := dims_field_numOrUndefined d hdu hdn hsrc "length" (Or.inl rfl)
  obtain ⟨vw, hvw, hvwI⟩ := dims_field_numOrUndefined d hdu hdn hsrc "width" (Or.inr (Or.inl rfl))
  obtain ⟨vh, hvh, hvhI⟩ := dims_field_numOrUndefined d hdu hdn hsrc "height" (Or.inr (Or.inr rfl))
  obtain ⟨pa, hpa, hpaI⟩ := imgPaintableArea_ok ds hpa1 hpa2
  by_cases hg : (strictEqNum (if vl.truthy then vl else .num (.fin 0)) 0 &&
      (strictEqNum (if vw.truthy then vw else .num (.fin 0)) 0 && pa.truthy)) = true
  · -- the fallback branch fires
    have hg3 := hg
    simp only [Bool.and_eq_true] at hg3
    obtain ⟨hga, hgb, hgc⟩ := hg3
    have hpat : pa.truthy = true := hgc
    obtain ⟨qpa, rfl⟩ : ∃ q, pa = RVal.num (.fin q) := by
      rcases hpaI with rfl | ⟨q, rfl⟩
      · simp [truthy_undefined] at hpat
      · exact ⟨q, rfl⟩
    unfold roomsOK at hrooms
    cases hk : jlookup "rooms" ds with
    | none =>
        refine ⟨{ length := .num (((((JNum.fin qpa).div (.fin 1)).mul (.fin 2)).div (.fin 10)).div (.fin 2)), width := .num (((((JNum.fin qpa).div (.fin 1)).mul (.fin 2)).div (.fin 10)).div (.fin 2)), height := .num (.fin 10) }, ?_, ?_, ?_, ?_⟩
        · simp [imgComputeDims, hd, hvl, hvw, hvh, hpa, hga, hgb, hgc, hk, ofJson, truthy_undefined,
            jsDiv, toNumber]
        · simp [RVal.isFinNum, JNum.div, JNum.mul]
        · simp [RVal.isFinNum, JNum.div, JNum.mul]
        · simp [RVal.isFinNum]
    | some v =>
        rw [hk] at hrooms
        cases v with
        | null =>
            refine ⟨{ length := .num (((((JNum.fin qpa).div (.fin 1)).mul (.fin 2)).div (.fin 10)).div (.fin 2)), width := .num (((((JNum.fin qpa).div (.fin 1)).mul (.fin 2)).div (.fin 10)).div (.fin 2)), height := .num (.fin 10) }, ?_, ?_, ?_, ?_⟩
            · simp [imgComputeDims, hd, hvl, hvw, hvh, hpa, hga, hgb, hgc, hk, ofJson, truthy_undefined,
                truthy_null, jsDiv, toNumber]
            · simp [RVal.isFinNum, JNum.div, JNum.mul]
            · simp [RVal.isFinNum, JNum.div, JNum.mul]
            · simp [RVal.isFinNum]
        | bool b => exact absurd hrooms (by simp)
        | num q => exact absurd hrooms (by simp)
        | str s => exact absurd hrooms (by simp)
        | obj g => exact absurd hrooms (by simp)
        | arr xs =>
            cases xs with
            | nil =>
                refine ⟨{ length := .num (((((JNum.fin qpa).div (.fin 1)).mul (.fin 2)).div (.fin 10)).div (.fin 2)), width := .num (((((JNum.fin qpa).div (.fin 1)).mul (.fin 2)).div (.fin 10)).div (.fin 2)), height := .num (.fin 10) }, ?_, ?_, ?_, ?_⟩
                · simp [imgComputeDims, hd, hvl, hvw, hvh, hpa, hga, hgb, hgc, hk, ofJson, truthy_undefined,
                    truthy_arrv, truthy_num_fin, getProp_arrv, jsDiv, toNumber]
                · simp [RVal.isFinNum, JNum.div, JNum.mul]
                · simp [RVal.isFinNum, JNum.div, JNum.mul]
                · simp [RVal.isFinNum]
            | cons r rest =>
                have hk1 : ((rest.length : ℚ) + 1) ≠ 0 := by positivity
                refine ⟨{ length := .num (((((JNum.fin qpa).div (.fin ((rest.length : ℚ) + 1))).mul (.fin 2)).div (.fin 10)).div (.fin 2)), width := .num (((((JNum.fin qpa).div (.fin ((rest.length : ℚ) + 1))).mul (.fin 2)).div (.fin 10)).div (.fin 2)), height := .num (.fin 10) }, ?_, ?_, ?_, ?_⟩
                · simp [imgComputeDims, hd, hvl, hvw, hvh, hpa, hga, hgb, hgc, hk, ofJson, truthy_undefined,
                    truthy_arrv, truthy_num_fin, hk1, getProp_arrv, jsDiv, toNumber]
                · simp [RVal.isFinNum, JNum.div, JNum.mul, hk1]
                · simp [RVal.isFinNum, JNum.div, JNum.mul, hk1]
                · simp [RVal.isFinNum]
  · refine ⟨{ length := (if vl.truthy then vl else RVal.num (.fin 0)), width := (if vw.truthy then vw else RVal.num (.fin 0)), height := (if vh.truthy then vh else RVal.num (.fin 0)) }, ?_, ?_, ?_, ?_⟩
    · simp [imgComputeDims, hd, hvl, hvw, hvh, hpa, hg]
      intro ha hb hc
      exact absurd (by simp [ha, hb, hc]) hg
    · exact isNumOrUndefined_default0 hvlI
    · exact isNumOrUndefined_default0 hvwI
    · exact isNumOrUndefined_default0 hvhI


lemma isFinNum_exists (v : RVal) (h : v.isFinNum = true) : ∃ q, v = RVal.num (.fin q) := by
  cases v with
  | num x =>
      cases x with
      | fin q => exact ⟨q, rfl⟩
      | nan => simp [RVal.isFinNum] at h
      | posInf => simp [RVal.isFinNum] at h
      | negInf => simp [RVal.isFinNum] at h
  | undefined => simp [RVal.isFinNum] at h
  | null => simp [RVal.isFinNum] at h
  | bool b => simp [RVal.isFinNum] at h
  | str s => simp [RVal.isFinNum] at h
  | arr xs => simp [RVal.isFinNum] at h
  | obj g => simp [RVal.isFinNum] at h

lemma jsToFixed_num (x : JNum) (d : ℕ) :
    jsToFixed (RVal.num x) d = .ok (jnumToFixed x d) := rfl

lemma toFixedBranch_ok (v : RVal) (h : v.isFinNum = true) (d : ℕ) :
    ∃ s, (if jsGt v (.num (.fin 0)) then jsToFixed v d else pure "Auto") = Except.ok s := by
  obtain ⟨q, rfl⟩ := isFinNum_exists v h
  by_cases hgt : jsGt (RVal.num (.fin q)) (.num (.fin 0)) = true
  · exact ⟨jnumToFixed (.fin q) d, by simp [hgt, jsToFixed]⟩
  · exact ⟨"Auto", by simp [hgt]⟩

lemma imgRender_ok (ds : List (String × JValue)) (r : ImgRecord)
    (hL : r.length.isFinNum = true) (hW : r.width.isFinNum = true)
    (hH : r.height.isFinNum = true)
    (hpa1 : numOrAbsent ds "total_paintable_area")
    (hpa2 : nestNumOrAbsent ds "area_calculation" "paintable_area")
    (hpr1 : numOrAbsent ds "total_paint_required")
    (hpr2 : nest2NumOrAbsent ds "product_breakdown" "paint" "quantity")
    (htc1 : numOrAbsent ds "total_cost")
    (htc2 : nestNumOrAbsent ds "cost_breakdown" "total_cost") :
    ∃ res, imgRender (RVal.obj ds) r = .ok res ∧ res.record = r ∧
      res.paintableArea.isFinNum = true ∧ res.paintRequired.isFinNum = true ∧
      res.totalCost.isFinNum = true := by
  obtain ⟨paD, hpaD, hpaDf⟩ := imgPaintableAreaD_fin ds hpa1 hpa2
  obtain ⟨prD, hprD, hprDf⟩ := imgPaintRequiredD_fin ds hpr1 hpr2
  obtain ⟨tcD, htcD, htcDf⟩ := imgTotalCostD_fin ds htc1 htc2
  obtain ⟨qa, rfl⟩ := isFinNum_exists paD hpaDf
  obtain ⟨qr, rfl⟩ := isFinNum_exists prD hprDf
  obtain ⟨qc, rfl⟩ := isFinNum_exists tcD htcDf
  obtain ⟨sl, hsl⟩ := toFixedBranch_ok r.length hL 1
  obtain ⟨sw, hsw⟩ := toFixedBranch_ok r.width hW 1
  obtain ⟨sh, hsh⟩ := toFixedBranch_ok r.height hH 1
  refine ⟨{ record := r, paintableArea := RVal.num (.fin qa), paintRequired := RVal.num (.fin qr), totalCost := RVal.num (.fin qc), paintableAreaText := jnumToFixed (.fin qa) 1, paintRequiredText := jnumToFixed (.fin qr) 2, lengthText := sl, widthText := sw, heightText := sh, totalCostText := jnumToFixed (.fin qc) 0 }, ?_, rfl, by simp [RVal.isFinNum], by simp [RVal.isFinNum], by simp [RVal.isFinNum]⟩
  simp only [except_pure_eq_ok] at hsl hsw hsh
  simp [imgRender, hpaD, hprD, htcD, hsl, hsw, hsh, jsToFixed_num]

/-- C1 counterexample: the claim that the normalize/display step never
throws is false — for the JSON body `{rooms: [null]}` the unguarded
`firstRoom.estimation` access in `displayResults` throws a TypeError. -/
theorem C1_counterexample :
    (displayResultsImg (JValue.obj [("rooms", JValue.arr [JValue.null])])).isOk = false := by
  decide

/-- C1 (amended): normalization is total and yields finite numeric
fields for well-shaped bodies.  Provided the envelope resolves to an
object `ds`, `rooms` is absent/null or an array whose first entry is
not null, the resolved dimensions object carries numbers-or-absent
dimension fields, and each consulted numeric field (paintable area,
paint quantity, total cost, with their nested alternates) is a number
or absent, `displayResults` does not throw and every numeric field of
the produced result record is a finite number. -/
theorem C1_amended (resp : JValue) (ds : List (String × JValue))
    (hw : imgWorking (ofJson resp) = .ok (RVal.obj ds))
    (hrooms : roomsOK ds)
    (hdims : ∀ d, imgDims (RVal.obj ds) = .ok d → dimsSourceOK d)
    (hpa1 : numOrAbsent ds "total_paintable_area")
    (hpa2 : nestNumOrAbsent ds "area_calculation" "paintable_area")
    (hpr1 : numOrAbsent ds "total_paint_required")
    (hpr2 : nest2NumOrAbsent ds "product_breakdown" "paint" "quantity")
    (htc1 : numOrAbsent ds "total_cost")
    (htc2 : nestNumOrAbsent ds "cost_breakdown" "total_cost") :
    ∃ res, displayResultsImg resp = .ok res ∧
      res.record.length.isFinNum = true ∧ res.record.width.isFinNum = true ∧
      res.record.height.isFinNum = true ∧ res.paintableArea.isFinNum = true ∧
      res.paintRequired.isFinNum = true ∧ res.totalCost.isFinNum = true := by
  obtain ⟨r, hr, hL, hW, hH⟩ := imgComputeDims_ok ds hrooms hdims hpa1 hpa2
  obtain ⟨res, hres, hrec, hfa, hfr, hfc⟩ :=
    imgRender_ok ds r hL hW hH hpa1 hpa2 hpr1 hpr2 htc1 htc2
  refine ⟨res, ?_, ?_, ?_, ?_, hfa, hfr, hfc⟩
  · simp [displayResultsImg, hw, hr, hres]
  · rw [hrec]; exact hL
  · rw [hrec]; exact hW
  · rw [hrec]; exact hH


/-- C1 witness: the amended theorem applied to a concrete enveloped
multi-room body. -/
theorem C1_witness :
    roomsOK [("total_paintable_area", JValue.num 250), ("total_cost", JValue.num 12000), ("rooms", JValue.arr [JValue.obj [("estimation", JValue.obj [("dimensions", JValue.obj [("length", JValue.num 12), ("width", JValue.num 10), ("height", JValue.num 9)])])]])] ∧
    numOrAbsent [("total_paintable_area", JValue.num 250), ("total_cost", JValue.num 12000), ("rooms", JValue.arr [JValue.obj [("estimation", JValue.obj [("dimensions", JValue.obj [("length", JValue.num 12), ("width", JValue.num 10), ("height", JValue.num 9)])])]])] "total_paintable_area" ∧
    (∃ res, displayResultsImg (JValue.obj [("data", JValue.obj [("total_paintable_area", JValue.num 250), ("total_cost", JValue.num 12000), ("rooms", JValue.arr [JValue.obj [("estimation", JValue.obj [("dimensions", JValue.obj [("length", JValue.num 12), ("width", JValue.num 10), ("height", JValue.num 9)])])]])])]) = .ok res ∧
      res.record.length.isFinNum = true ∧ res.record.width.isFinNum = true ∧
      res.record.height.isFinNum = true ∧ res.paintableArea.isFinNum = true ∧
      res.paintRequired.isFinNum = true ∧ res.totalCost.isFinNum = true) := by
  refine ⟨by simp [roomsOK, jlookup], by simp [numOrAbsent, jlookup], ?_⟩
  refine C1_amended (JValue.obj [("data", JValue.obj [("total_paintable_area", JValue.num 250), ("total_cost", JValue.num 12000), ("rooms", JValue.arr [JValue.obj [("estimation", JValue.obj [("dimensions", JValue.obj [("length", JValue.num 12), ("width", JValue.num 10), ("height", JValue.num 9)])])]])])]) [("total_paintable_area", JValue.num 250), ("total_cost", JValue.num 12000), ("rooms", JValue.arr [JValue.obj [("estimation", JValue.obj [("dimensions", JValue.obj [("length", JValue.num 12), ("width", JValue.num 10), ("height", JValue.num 9)])])]])]
    (by rfl) (by simp [roomsOK, jlookup]) ?_
    (by simp [numOrAbsent, jlookup]) (by simp [nestNumOrAbsent, jlookup])
    (by simp [numOrAbsent, jlookup]) (by simp [nest2NumOrAbsent, jlookup])
    (by simp [numOrAbsent, jlookup]) (by simp [nestNumOrAbsent, jlookup])
  intro d hd
  have he : imgDims (RVal.obj [("total_paintable_area", JValue.num 250), ("total_cost", JValue.num 12000), ("rooms", JValue.arr [JValue.obj [("estimation", JValue.obj [("dimensions", JValue.obj [("length", JValue.num 12), ("width", JValue.num 10), ("height", JValue.num 9)])])]])]) =
      .ok (RVal.obj [("length", JValue.num 12), ("width", JValue.num 10),
        ("height", JValue.num 9)]) := by rfl
  rw [he] at hd
  have hde := (Except.ok.inj hd).symm
  rw [hde]
  simp [dimsSourceOK, numOrAbsent, jlookup]


/-- Every reachable state of `uploadedImages` has at most 4 entries. -/
lemma reachableImages_length_le_four (s : List IFile) (h : ReachableImages s) :
    s.length ≤ 4 := by
  induction h with
  | start => simp
  | addMulti s files _ ih =>
      by_cases h1 : (files.filter isImageFile).length = 0
      · simpa [addMultipleImages, h1] using ih
      · by_cases h2 : 4 < s.length + (files.filter isImageFile).length
        · simpa [addMultipleImages, h1, h2] using ih
        · simp only [addMultipleImages, if_neg h1, if_neg h2, List.length_append]
          omega
  | removeMulti s i _ ih =>
      calc (removeMultiImage s i).length ≤ s.length := by
            simp only [removeMultiImage, List.length_eraseIdx]
            split <;> omega
        _ ≤ 4 := ih
  | single s f _ ih =>
      by_cases hf : isImageFile f = true
      · simp [displaySingleImage, hf]
      · simpa [displaySingleImage, hf] using ih
  | removeSingle s _ _ =>
      simp [removeSingleImage]

/-! ## Claims -/

/-- C6 counterexample: the manual validator accepts a NaN length
(e.g. `parseFloat` of an empty field): `NaN <= 0` and `NaN > 100` are
both false, so both guards pass and the validator returns `true` even
though the length is not a finite number — contradicting the claim
that `ok=true` requires length, width and height to be finite. -/
theorem C6_counterexample :
    validateManualForm JNum.nan (JNum.fin 50) (JNum.fin 8) = true ∧
    JNum.isFinite JNum.nan = false := by
  exact ⟨by decide, by decide⟩

/-- C6 (amended): the manual validator returns `ok=true` iff each of
length, width and height is either NaN (which passes both JS
comparison guards) or a finite number in the claimed range
((0,100] for length/width, (0,20] for height).  In particular every
all-finite in-range input validates, every finite out-of-range or
infinite input is rejected, but finiteness itself is NOT enforced:
NaN dimensions also yield `ok=true`. -/
theorem C6_amended (length width height : JNum) :
    validateManualForm length width height = true ↔
      ((length = JNum.nan ∨ ∃ q, length = JNum.fin q ∧ 0 < q ∧ q ≤ 100) ∧
       (width = JNum.nan ∨ ∃ q, width = JNum.fin q ∧ 0 < q ∧ q ≤ 100) ∧
       (height = JNum.nan ∨ ∃ q, height = JNum.fin q ∧ 0 < q ∧ q ≤ 20)) := by
  cases length <;> cases width <;> cases height <;>
    simp [validateManualForm, JNum.le, JNum.lt, not_le, not_lt] <;>
    tauto

/-- C5: the multi-image payload builder emits one descriptor per
uploaded file, in selection order: descriptor `i` carries the
auto-numbered room name `Wall i+1`, the shared room/paint form values,
`num_coats = 2`, and `include_ceiling` false for every entry after the
first (in fact for every entry). -/
theorem C5_prop (files : List IFile) (roomType paintType : String) (i : ℕ)
    (h : i < files.length) :
    (multiRoomData files roomType paintType).length = files.length ∧
    ∃ d, (multiRoomData files roomType paintType)[i]? = some d ∧
      d.room_type = roomType ∧
      d.room_name = "Wall " ++ toString (i + 1) ∧
      d.paint_type = paintType ∧
      d.num_coats = 2 ∧
      (0 < i → d.include_ceiling = false) := by
  have hget : (multiRoomData files roomType paintType)[i]? =
      some { room_type := roomType
             room_name := "Wall " ++ toString (i + 1)
             paint_type := paintType
             num_coats := 2
             include_ceiling := false } := by
    unfold multiRoomData
    rw [List.getElem?_mapIdx, List.getElem?_eq_getElem h]
    simp
  exact ⟨by simp [multiRoomData], _, hget, rfl, rfl, rfl, rfl, fun _ => rfl⟩

/-- C5 witness: the theorem at a concrete two-file selection and
index 1. -/
theorem C5_witness :
    (1 < ([⟨"image/png"⟩, ⟨"image/jpeg"⟩] : List IFile).length) ∧
    ∃ d, (multiRoomData [⟨"image/png"⟩, ⟨"image/jpeg"⟩] "bedroom" "premium")[1]? = some d ∧
      d.room_type = "bedroom" ∧
      d.room_name = "Wall " ++ toString (1 + 1) ∧
      d.paint_type = "premium" ∧
      d.num_coats = 2 ∧
      (0 < 1 → d.include_ceiling = false) := by
  refine ⟨by decide, ?_⟩
  exact (C5_prop [⟨"image/png"⟩, ⟨"image/jpeg"⟩] "bedroom" "premium" 1 (by decide)).2

/-- C9: the `uploadedImages` list invariant.  Every reachable state of
the image-estimation page has at most 4 uploaded images, and a
multi-add whose (image-filtered) batch would push the total past 4 is
rejected wholesale, leaving the list unchanged. -/
theorem C9_prop :
    (∀ s, ReachableImages s → s.length ≤ 4) ∧
    (∀ s files, 4 < s.length + (files.filter isImageFile).length →
       addMultipleImages s files = s) := by
  refine ⟨reachableImages_length_le_four, fun s files h => ?_⟩
  by_cases h1 : (files.filter isImageFile).length = 0
  · simp [addMultipleImages, h1]
  · simp [addMultipleImages, h1, h]

/-- C9 witness: the invariant at a concrete reachable state, and a
wholesale rejection of a 5-image add onto the empty list. -/
theorem C9_witness :
    (ReachableImages ([] : List IFile) ∧ ([] : List IFile).length ≤ 4) ∧
    (4 < ([] : List IFile).length +
        (([⟨"image/a"⟩, ⟨"image/b"⟩, ⟨"image/c"⟩, ⟨"image/d"⟩, ⟨"image/e"⟩] :
          List IFile).filter isImageFile).length ∧
     addMultipleImages []
        [⟨"image/a"⟩, ⟨"image/b"⟩, ⟨"image/c"⟩, ⟨"image/d"⟩, ⟨"image/e"⟩] = []) := by
  refine ⟨⟨ReachableImages.start, C9_prop.1 [] ReachableImages.start⟩, ?_, ?_⟩
  · decide
  · exact C9_prop.2 _ _ (by decide)

/-- C7: for every reachable multi-image selection whose file count is
outside [2,4], `handleMultiSubmit` performs no transport call: fewer
than 2 files hits the early return before the fetch, and more than 4
files is impossible by the C9 invariant. -/
theorem C7_prop (s : List IFile) (roomType paintType : String)
    (hreach : ReachableImages s) (hout : s.length < 2 ∨ 4 < s.length) :
    handleMultiSubmit s roomType paintType = none := by
  rcases hout with h | h
  · simp [handleMultiSubmit, h]
  · exact absurd (reachableImages_length_le_four s hreach) (by omega)

/-- C7 witness: a reachable single-file selection, for which submit
makes no transport call. -/
theorem C7_witness :
    ReachableImages [(⟨"image/png"⟩ : IFile)] ∧
    handleMultiSubmit [(⟨"image/png"⟩ : IFile)] "bedroom" "premium" = none := by
  have hr : ReachableImages [(⟨"image/png"⟩ : IFile)] := by
    have h := ReachableImages.single [] ⟨"image/png"⟩ ReachableImages.start
    have he : displaySingleImage [] ⟨"image/png"⟩ = [(⟨"image/png"⟩ : IFile)] := by decide
    rwa [he] at h
  exact ⟨hr, C7_prop _ "bedroom" "premium" hr (Or.inl (by decide))⟩

/-- C8 counterexample: with a video selected, invoking submit twice in
quick succession starts two transport calls, not one — the handler has
no in-flight guard and never disables the submit control (it only
shows a loading overlay), so the claim is false. -/
theorem C8_counterexample :
    submitTwice (some { name := "walkthrough.mp4" }) = 2 := by
  rfl

/-- C8 (amended): no in-flight guard exists.  Each invocation of the
video submit handler with a selected video starts exactly one
transport call and leaves the selection (and hence the guard state)
unchanged, so two quick submissions for the same view produce exactly
two transport calls. -/
theorem C8_amended (uploadedVideo : Option VFile) (h : uploadedVideo.isSome = true) :
    (handleFormSubmit uploadedVideo).fetchesStarted = 1 ∧
    (handleFormSubmit uploadedVideo).uploadedVideo = uploadedVideo ∧
    submitTwice uploadedVideo = 2 := by
  cases uploadedVideo with
  | none => simp at h
  | some v => exact ⟨rfl, rfl, rfl⟩

/-- C8 witness: the amended statement at a concrete selected video. -/
theorem C8_witness :
    (some { name := "tour.mp4" } : Option VFile).isSome = true ∧
    submitTwice (some { name := "tour.mp4" }) = 2 := by
  exact ⟨rfl, (C8_amended (some { name := "tour.mp4" }) rfl).2.2⟩

/-- C10: when the floor-plan response's `rooms` is missing or the
empty array, `displayFloorPlanResults` renders only the warning
message and returns early — the `warning` outcome excludes the room
table, the totals summary and any cost. -/
theorem C10_prop (ds : List (String × JValue))
    (h : jlookup "rooms" ds = none ∨ jlookup "rooms" ds = some (JValue.arr [])) :
    displayFloorPlanResults (RVal.obj ds) = .ok .warning := by
  rcases h with h | h <;>
    simp [displayFloorPlanResults, h, ofJson, RVal.truthy, strictEqNum, getProp]

/-- C10 witness: the empty response object (no `rooms` key). -/
theorem C10_witness :
    jlookup "rooms" ([] : List (String × JValue)) = none ∧
    displayFloorPlanResults (RVal.obj []) = .ok .warning := by
  exact ⟨rfl, C10_prop [] (Or.inl rfl)⟩

/-- C2: the area-based dimension fallback.  For a working object with
`total_paintable_area = 400`, no `dimensions` and no `rooms`, length
and width both resolve to 0 via the `|| 0` defaults, so the fallback
fires with fixed height 10 and room count 1: wall area 400/1 = 400,
perimeter (400·2)/10 = 80, estimated side 80/2 = 40, giving
dimensions {length: 40, width: 40, height: 10}. -/
theorem C2_prop (ds : List (String × JValue))
    (h1 : jlookup "rooms" ds = none)
    (h2 : jlookup "dimensions" ds = none)
    (h3 : jlookup "total_paintable_area" ds = some (JValue.num 400)) :
    imgComputeDims (RVal.obj ds) =
      .ok { length := .num (.fin 40), width := .num (.fin 40), height := .num (.fin 10) } := by
  simp [imgComputeDims, imgDims, imgPaintableArea, h1, h2, h3, ofJson, RVal.truthy,
    strictEqNum, jsDiv, toNumber, JNum.div, JNum.mul, jlookup, orElseE, getPropOpt]
  norm_num

/-- With a numeric nonzero `overall_confidence` and no variance data,
the video confidence block rounds the percentage and applies the
percentage banding. -/
lemma videoConfidence_overall (q : ℚ) (hq : q ≠ 0) :
    videoConfidence (mkVideoConfidence q) =
      .ok { percent := .fin (⌊q * 100 + 1/2⌋ : ℤ)
            level := (specPercentBand ⌊q * 100 + 1/2⌋).1
            color := (specPercentBand ⌊q * 100 + 1/2⌋).2.1
            expectedError := (specPercentBand ⌊q * 100 + 1/2⌋).2.2
            dimensionConfidence := .num (.fin q)
            detectionConfidence := .num (.fin q)
            varianceScore := .num (.fin q) } := by
  simp [videoConfidence, videoDims, mkVideoConfidence, jlookup, ofJson, orElseE,
    RVal.truthy, RVal.isNumberType, RVal.isUndefined, toNumber, JNum.isNaN, jsMul, JNum.mul,
    JNum.round, getPropOpt, hq, JNum.le]
  generalize ⌊q * 100 + 2⁻¹⌋ = z
  by_cases h90 : (90 : ℤ) ≤ z
  · have h90q : (90 : ℚ) ≤ (z : ℚ) := by exact_mod_cast h90
    simp [specPercentBand, h90, h90q]
  · have h90q : ¬ (90 : ℚ) ≤ (z : ℚ) := by exact_mod_cast h90
    by_cases h75 : (75 : ℤ) ≤ z
    · have h75q : (75 : ℚ) ≤ (z : ℚ) := by exact_mod_cast h75
      simp [specPercentBand, h90, h90q, h75, h75q]
    · have h75q : ¬ (75 : ℚ) ≤ (z : ℚ) := by exact_mod_cast h75
      by_cases h60 : (60 : ℤ) ≤ z
      · have h60q : (60 : ℚ) ≤ (z : ℚ) := by exact_mod_cast h60
        simp [specPercentBand, h90, h90q, h75, h75q, h60, h60q]
      · have h60q : ¬ (60 : ℚ) ≤ (z : ℚ) := by exact_mod_cast h60
        by_cases h40 : (40 : ℤ) ≤ z
        · have h40q : (40 : ℚ) ≤ (z : ℚ) := by exact_mod_cast h40
          simp [specPercentBand, h90, h90q, h75, h75q, h60, h60q, h40, h40q]
        · have h40q : ¬ (40 : ℚ) ≤ (z : ℚ) := by exact_mod_cast h40
          simp [specPercentBand, h90, h90q, h75, h75q, h60, h60q, h40, h40q]

/-- With variance data present, the video confidence block derives the
level, color and expected-error string from the error percentage via
the four-band mapping, independently of the confidence percentage. -/
lemma videoConfidence_variance (q e : ℚ) (hq : q ≠ 0) :
    videoConfidence (mkVideoVariance q e) =
      .ok { percent := .fin (⌊q * 100 + 1/2⌋ : ℤ)
            level := (specVarianceBand e).1
            color := (specVarianceBand e).2
            expectedError := "±" ++ finToFixed e 1 ++ "%"
            dimensionConfidence := .num (.fin q)
            detectionConfidence := .num (.fin q)
            varianceScore := .num (.fin q) } := by
  simp [videoConfidence, videoDims, mkVideoVariance, jlookup, ofJson, orElseE,
    RVal.truthy, RVal.isNumberType, RVal.isUndefined, toNumber, JNum.isNaN, jsMul, JNum.mul,
    JNum.round, getPropOpt, hq, JNum.le, jsToFixed, jnumToFixed, jsLe]
  by_cases h5 : e ≤ (5 : ℚ)
  · simp [specVarianceBand, h5]
  · by_cases h8 : e ≤ (8 : ℚ)
    · simp [specVarianceBand, h5, h8]
    · by_cases h15 : e ≤ (15 : ℚ)
      · simp [specVarianceBand, h5, h8, h15]
      · simp [specVarianceBand, h5, h8, h15]

/-- C3: video-mode confidence normalization.
With `confidence.overall_confidence = 0.92` the displayed percent is
92 and the level is the ≥90 band ("Very High").  When the resolved
confidence value is not a number (e.g. the empty response, where the
chain falls back to the `{}` object) and no vision-API flag is set,
the default 0.70 is substituted, giving percent 70 and the ≥60 band
("Medium"); with a truthy `vision_api_result.used` the default is
0.90.  In general a numeric nonzero confidence maps to the ordered
band table `specPercentBand` with its fixed colors and expected-error
strings. -/
theorem C3_prop :
    (∃ c, videoConfidence (mkVideoConfidence (92/100)) = .ok c ∧
       c.percent = .fin 92 ∧ c.level = "Very High") ∧
    (videoConfidence (RVal.obj []) =
      .ok { percent := .fin 70, level := "Medium", color := "#eab308", expectedError := "±15%",
            dimensionConfidence := .num (.fin (7/10)), detectionConfidence := .num (.fin (7/10)),
            varianceScore := .num (.fin (7/10)) }) ∧
    (videoConfidence (RVal.obj [("vision_api_result", JValue.obj [("used", JValue.bool true)])]) =
      .ok { percent := .fin 90, level := "Very High", color := "#10b981", expectedError := "±5%",
            dimensionConfidence := .num (.fin (9/10)), detectionConfidence := .num (.fin (9/10)),
            varianceScore := .num (.fin (9/10)) }) ∧
    (∀ q : ℚ, q ≠ 0 →
      videoConfidence (mkVideoConfidence q) =
        .ok { percent := .fin (⌊q * 100 + 1/2⌋ : ℤ)
              level := (specPercentBand ⌊q * 100 + 1/2⌋).1
              color := (specPercentBand ⌊q * 100 + 1/2⌋).2.1
              expectedError := (specPercentBand ⌊q * 100 + 1/2⌋).2.2
              dimensionConfidence := .num (.fin q)
              detectionConfidence := .num (.fin q)
              varianceScore := .num (.fin q) }) := by
  have hz70 : ⌊(7:ℚ) / 10 * 100 + 2⁻¹⌋ = (70 : ℤ) := by
    rw [Int.floor_eq_iff]; norm_num
  have hz90 : ⌊(9:ℚ) / 10 * 100 + 2⁻¹⌋ = (90 : ℤ) := by
    rw [Int.floor_eq_iff]; norm_num
  have hz92 : ⌊(92:ℚ)/100 * 100 + 1/2⌋ = (92 : ℤ) := by
    rw [Int.floor_eq_iff]; norm_num
  refine ⟨?_, ?_, ?_, videoConfidence_overall⟩
  · have h := videoConfidence_overall (92/100) (by norm_num)
    rw [hz92] at h
    exact ⟨_, h, by norm_num, by norm_num [specPercentBand]⟩
  · simp [videoConfidence, videoDims, jlookup, ofJson, orElseE, RVal.truthy, RVal.isNumberType,
      RVal.isUndefined, toNumber, JNum.isNaN, jsMul, JNum.mul, JNum.round, getPropOpt, getProp,
      JNum.le, hz70]
    norm_num
  · simp [videoConfidence, videoDims, jlookup, ofJson, orElseE, RVal.truthy, RVal.isNumberType,
      RVal.isUndefined, toNumber, JNum.isNaN, jsMul, JNum.mul, JNum.round, getPropOpt, getProp,
      JNum.le, hz90]

/-- C3 witness: the general band mapping applied at confidence 0.46
(percent 46, the [40,60) band). -/
theorem C3_witness :
    ((46:ℚ)/100 ≠ 0) ∧
    videoConfidence (mkVideoConfidence (46/100)) =
      .ok { percent := .fin (⌊(46:ℚ)/100 * 100 + 1/2⌋ : ℤ)
            level := (specPercentBand ⌊(46:ℚ)/100 * 100 + 1/2⌋).1
            color := (specPercentBand ⌊(46:ℚ)/100 * 100 + 1/2⌋).2.1
            expectedError := (specPercentBand ⌊(46:ℚ)/100 * 100 + 1/2⌋).2.2
            dimensionConfidence := .num (.fin (46/100))
            detectionConfidence := .num (.fin (46/100))
            varianceScore := .num (.fin (46/100)) } := by
  exact ⟨by norm_num, C3_prop.2.2.2 (46/100) (by norm_num)⟩

lemma getProp_ok_of_defined (v : RVal) (hu : v ≠ .undefined) (hn : v ≠ .null) (k : String) :
    ∃ w, getProp v k = .ok w := by
  cases v with
  | undefined => exact absurd rfl hu
  | null => exact absurd rfl hn
  | bool b => exact ⟨_, rfl⟩
  | num x => exact ⟨_, rfl⟩
  | str s => exact ⟨_, rfl⟩
  | arr xs => exact ⟨_, rfl⟩
  | obj g => exact ⟨_, rfl⟩

lemma ofJson_num_fin (j : JValue) (x : JNum) (h : ofJson j = RVal.num x) :
    ∃ q, x = JNum.fin q := by
  cases j <;> simp [ofJson] at h
  exact ⟨_, h.symm⟩

lemma elim_num_fin (o : Option JValue) (x : JNum)
    (h : o.elim RVal.undefined ofJson = RVal.num x) : ∃ q, x = JNum.fin q := by
  cases o with
  | none => simp at h
  | some j => exact ofJson_num_fin j x h

lemma getProp_num_fin (v : RVal) (k : String) (w : RVal) (h : getProp v k = .ok w) :
    ∀ x, w = RVal.num x → ∃ q, x = JNum.fin q := by
  intro x hx
  cases v with
  | undefined => simp [getProp] at h
  | null => simp [getProp] at h
  | bool b => simp [getProp] at h; subst h; simp at hx
  | num y => simp [getProp] at h; subst h; simp at hx
  | str s =>
      simp [getProp] at h
      subst h
      by_cases hk : k = "length"
      · simp [hk] at hx
        exact ⟨s.length, hx.symm⟩
      · simp [hk] at hx
  | arr xs =>
      simp [getProp] at h
      subst h
      by_cases hk : k = "length"
      · simp [hk] at hx
        exact ⟨xs.length, hx.symm⟩
      · simp [hk] at hx
  | obj g =>
      simp [getProp] at h
      subst h
      exact elim_num_fin _ x hx

lemma videoDims_ok (ds : List (String × JValue)) :
    ∃ d, videoDims (RVal.obj ds) = .ok d ∧ d ≠ .undefined ∧ d ≠ .null := by
  by_cases h1 : ((jlookup "dimensions" ds).elim RVal.undefined ofJson).truthy = true
  · refine ⟨(jlookup "dimensions" ds).elim RVal.undefined ofJson, ?_,
      (truthy_defined _ h1).1, (truthy_defined _ h1).2⟩
    simp [videoDims, orElseE, h1]
  · by_cases h2 : ((jlookup "room_dimensions" ds).elim RVal.undefined ofJson).truthy = true
    · refine ⟨(jlookup "room_dimensions" ds).elim RVal.undefined ofJson, ?_,
        (truthy_defined _ h2).1, (truthy_defined _ h2).2⟩
      simp [videoDims, orElseE, h1, h2]
    · obtain ⟨d3, hd3⟩ :=
        getPropOpt_ok ((jlookup "dimension_analysis" ds).elim RVal.undefined ofJson) "dimensions"
      refine ⟨if d3.truthy then d3 else RVal.obj [], ?_,
        (ifDefault_defined d3).1, (ifDefault_defined d3).2⟩
      simp [videoDims, orElseE, h1, h2, hd3]

lemma overallStep_fin (ds : List (String × JValue)) (oc0 : RVal)
    (hfin : ∀ x, oc0 = RVal.num x → ∃ q, x = JNum.fin q) :
    ∃ qoc : ℚ,
      (if (toNumber oc0).isNaN || ¬ oc0.isNumberType then do
         let vres ← getProp (RVal.obj ds) "vision_api_result"
         let used ← getPropOpt vres "used"
         pure (if used.truthy then RVal.num (.fin (9/10)) else RVal.num (.fin (7/10)))
       else pure oc0) = Except.ok (RVal.num (.fin qoc)) := by
  obtain ⟨used, hused⟩ :=
    getPropOpt_ok ((jlookup "vision_api_result" ds).elim RVal.undefined ofJson) "used"
  cases h0 : oc0 with
  | num x =>
      obtain ⟨q, rfl⟩ := hfin x h0
      refine ⟨q, ?_⟩
      simp [toNumber, JNum.isNaN, RVal.isNumberType]
  | undefined =>
      refine ⟨if used.truthy then 9/10 else 7/10, ?_⟩
      simp [toNumber, JNum.isNaN, RVal.isNumberType, hused]
      split <;> simp
  | null =>
      refine ⟨if used.truthy then 9/10 else 7/10, ?_⟩
      simp [toNumber, JNum.isNaN, RVal.isNumberType, hused]
      split <;> simp
  | bool b =>
      refine ⟨if used.truthy then 9/10 else 7/10, ?_⟩
      simp [toNumber, JNum.isNaN, RVal.isNumberType, hused]
      split <;> simp
  | str s =>
      refine ⟨if used.truthy then 9/10 else 7/10, ?_⟩
      simp [toNumber, JNum.isNaN, RVal.isNumberType, hused]
      split <;> simp
  | arr xs =>
      refine ⟨if used.truthy then 9/10 else 7/10, ?_⟩
      simp [toNumber, JNum.isNaN, RVal.isNumberType, hused]
      split <;> simp
  | obj g =>
      refine ⟨if used.truthy then 9/10 else 7/10, ?_⟩
      simp [toNumber, JNum.isNaN, RVal.isNumberType, hused]
      split <;> simp


lemma ite_ok (c : Prop) [Decidable c] (a b : RVal) :
    (if c then (Except.ok a : Except JsErr RVal) else Except.ok b)
      = Except.ok (if c then a else b) := by
  split <;> rfl

lemma videoConfVariancePath (ds : List (String × JValue)) (e : ℚ)
    (hep : videoErrorPercentage (RVal.obj ds) = .ok (RVal.num (.fin e))) :
    ∃ c, videoConfidence (RVal.obj ds) = .ok c ∧
      c.level = (specVarianceBand e).1 ∧
      c.color = (specVarianceBand e).2 ∧
      c.expectedError = "±" ++ finToFixed e 1 ++ "%" := by
  obtain ⟨dims, hdims, hdu, hdn⟩ := videoDims_ok ds
  obtain ⟨vd, hvd⟩ := getProp_ok_of_defined dims hdu hdn "variance"
  obtain ⟨ep, hepv⟩ := getProp_ok_of_defined (if vd.truthy then vd else RVal.obj [])
      (ifDefault_defined vd).1 (ifDefault_defined vd).2 "error_percentage"
  have hveq : videoErrorPercentage (RVal.obj ds) = .ok ep := by
    simp [videoErrorPercentage, hdims, hvd, hepv]
  rw [hveq] at hep
  have hepe : ep = RVal.num (.fin e) := Except.ok.inj hep
  rw [hepe] at hepv
  obtain ⟨oc1v, hoc1⟩ := getProp_ok_of_defined (if ((jlookup "confidence" ds).elim RVal.undefined ofJson).truthy then ((jlookup "confidence" ds).elim RVal.undefined ofJson) else if ((jlookup "detection_confidence" ds).elim RVal.undefined ofJson).truthy then ((jlookup "detection_confidence" ds).elim RVal.undefined ofJson) else RVal.obj [])
      (ifChain2_defined ((jlookup "confidence" ds).elim RVal.undefined ofJson) ((jlookup "detection_confidence" ds).elim RVal.undefined ofJson)).1 (ifChain2_defined ((jlookup "confidence" ds).elim RVal.undefined ofJson) ((jlookup "detection_confidence" ds).elim RVal.undefined ofJson)).2 "overall_confidence"
  obtain ⟨dcv, hdc⟩ := getProp_ok_of_defined (if ((jlookup "confidence" ds).elim RVal.undefined ofJson).truthy then ((jlookup "confidence" ds).elim RVal.undefined ofJson) else if ((jlookup "detection_confidence" ds).elim RVal.undefined ofJson).truthy then ((jlookup "detection_confidence" ds).elim RVal.undefined ofJson) else RVal.obj [])
      (ifChain2_defined ((jlookup "confidence" ds).elim RVal.undefined ofJson) ((jlookup "detection_confidence" ds).elim RVal.undefined ofJson)).1 (ifChain2_defined ((jlookup "confidence" ds).elim RVal.undefined ofJson) ((jlookup "detection_confidence" ds).elim RVal.undefined ofJson)).2 "dimension_confidence"
  obtain ⟨dtv, hdt⟩ := getProp_ok_of_defined (if ((jlookup "confidence" ds).elim RVal.undefined ofJson).truthy then ((jlookup "confidence" ds).elim RVal.undefined ofJson) else if ((jlookup "detection_confidence" ds).elim RVal.undefined ofJson).truthy then ((jlookup "detection_confidence" ds).elim RVal.undefined ofJson) else RVal.obj [])
      (ifChain2_defined ((jlookup "confidence" ds).elim RVal.undefined ofJson) ((jlookup "detection_confidence" ds).elim RVal.undefined ofJson)).1 (ifChain2_defined ((jlookup "confidence" ds).elim RVal.undefined ofJson) ((jlookup "detection_confidence" ds).elim RVal.undefined ofJson)).2 "detection_confidence"
  obtain ⟨vsv, hvs⟩ := getProp_ok_of_defined (if ((jlookup "confidence" ds).elim RVal.undefined ofJson).truthy then ((jlookup "confidence" ds).elim RVal.undefined ofJson) else if ((jlookup "detection_confidence" ds).elim RVal.undefined ofJson).truthy then ((jlookup "detection_confidence" ds).elim RVal.undefined ofJson) else RVal.obj [])
      (ifChain2_defined ((jlookup "confidence" ds).elim RVal.undefined ofJson) ((jlookup "detection_confidence" ds).elim RVal.undefined ofJson)).1 (ifChain2_defined ((jlookup "confidence" ds).elim RVal.undefined ofJson) ((jlookup "detection_confidence" ds).elim RVal.undefined ofJson)).2 "variance_score"
  have hfin0 : ∀ x, (if oc1v.truthy then oc1v else if (if ((jlookup "confidence" ds).elim RVal.undefined ofJson).truthy then ((jlookup "confidence" ds).elim RVal.undefined ofJson) else if ((jlookup "detection_confidence" ds).elim RVal.undefined ofJson).truthy then ((jlookup "detection_confidence" ds).elim RVal.undefined ofJson) else RVal.obj []).truthy then (if ((jlookup "confidence" ds).elim RVal.undefined ofJson).truthy then ((jlookup "confidence" ds).elim RVal.undefined ofJson) else if ((jlookup "detection_confidence" ds).elim RVal.undefined ofJson).truthy then ((jlookup "detection_confidence" ds).elim RVal.undefined ofJson) else RVal.obj []) else RVal.num (.fin 0)) = RVal.num x → ∃ q, x = JNum.fin q := by
    intro x hx
    by_cases hb1 : oc1v.truthy = true
    · rw [if_pos hb1] at hx
      exact getProp_num_fin _ _ _ hoc1 x hx
    · rw [if_neg hb1] at hx
      by_cases hb2 : ((if ((jlookup "confidence" ds).elim RVal.undefined ofJson).truthy then ((jlookup "confidence" ds).elim RVal.undefined ofJson) else if ((jlookup "detection_confidence" ds).elim RVal.undefined ofJson).truthy then ((jlookup "detection_confidence" ds).elim RVal.undefined ofJson) else RVal.obj [])).truthy = true
      · rw [if_pos hb2] at hx
        by_cases hb3 : (((jlookup "confidence" ds).elim RVal.undefined ofJson)).truthy = true
        · rw [if_pos hb3] at hx
          exact elim_num_fin _ x hx
        · rw [if_neg hb3] at hx
          by_cases hb4 : (((jlookup "detection_confidence" ds).elim RVal.undefined ofJson)).truthy = true
          · rw [if_pos hb4] at hx
            exact elim_num_fin _ x hx
          · rw [if_neg hb4] at hx
            exact absurd hx (by simp)
      · rw [if_neg hb2] at hx
        exact ⟨0, (RVal.num.inj hx).symm⟩
  obtain ⟨qoc, hoverall⟩ := overallStep_fin ds (if oc1v.truthy then oc1v else if (if ((jlookup "confidence" ds).elim RVal.undefined ofJson).truthy then ((jlookup "confidence" ds).elim RVal.undefined ofJson) else if ((jlookup "detection_confidence" ds).elim RVal.undefined ofJson).truthy then ((jlookup "detection_confidence" ds).elim RVal.undefined ofJson) else RVal.obj []).truthy then (if ((jlookup "confidence" ds).elim RVal.undefined ofJson).truthy then ((jlookup "confidence" ds).elim RVal.undefined ofJson) else if ((jlookup "detection_confidence" ds).elim RVal.undefined ofJson).truthy then ((jlookup "detection_confidence" ds).elim RVal.undefined ofJson) else RVal.obj []) else RVal.num (.fin 0)) hfin0
  refine ⟨{ percent := JNum.round (jsMul (RVal.num (.fin qoc)) (RVal.num (.fin 100))), level := (specVarianceBand e).1, color := (specVarianceBand e).2, expectedError := "±" ++ finToFixed e 1 ++ "%", dimensionConfidence := if dcv.truthy then dcv else RVal.num (.fin qoc), detectionConfidence := if dtv.truthy then dtv else RVal.num (.fin qoc), varianceScore := if vsv.truthy then vsv else RVal.num (.fin qoc) }, ?_, rfl, rfl, rfl⟩
  simp only [getProp_obj, except_bind_ok, except_pure_eq_ok, ite_ok] at hoverall
  simp only [videoConfidence, orElseE, getProp_obj, except_bind_ok, except_pure_eq_ok, ite_ok,
    hdims, hoc1]
  rw [hoverall]
  simp only [except_bind_ok, hdc, hdt, hvs, hvd, hepv]
  by_cases h5 : e ≤ (5:ℚ)
  · simp [RVal.isUndefined, jsToFixed_num, jnumToFixed, jsLe, toNumber, JNum.le, specVarianceBand, h5]
  · by_cases h8 : e ≤ (8:ℚ)
    · simp [RVal.isUndefined, jsToFixed_num, jnumToFixed, jsLe, toNumber, JNum.le, specVarianceBand, h5, h8]
    · by_cases h15 : e ≤ (15:ℚ)
      · simp [RVal.isUndefined, jsToFixed_num, jnumToFixed, jsLe, toNumber, JNum.le, specVarianceBand, h5, h8,
          h15]
      · simp [RVal.isUndefined, jsToFixed_num, jnumToFixed, jsLe, toNumber, JNum.le, specVarianceBand, h5, h8,
          h15]

lemma videoConfPercentPath (ds : List (String × JValue))
    (hep : videoErrorPercentage (RVal.obj ds) = .ok RVal.undefined) :
    ∃ c, ∃ z : ℤ, videoConfidence (RVal.obj ds) = .ok c ∧
      c.percent = JNum.fin (z : ℚ) ∧
      c.level = (specPercentBand z).1 ∧
      c.color = (specPercentBand z).2.1 ∧
      c.expectedError = (specPercentBand z).2.2 := by
  obtain ⟨dims, hdims, hdu, hdn⟩ := videoDims_ok ds
  obtain ⟨vd, hvd⟩ := getProp_ok_of_defined dims hdu hdn "variance"
  obtain ⟨ep, hepv⟩ := getProp_ok_of_defined (if vd.truthy then vd else RVal.obj [])
      (ifDefault_defined vd).1 (ifDefault_defined vd).2 "error_percentage"
  have hveq : videoErrorPercentage (RVal.obj ds) = .ok ep := by
    simp [videoErrorPercentage, hdims, hvd, hepv]
  rw [hveq] at hep
  have hepe : ep = RVal.undefined := Except.ok.inj hep
  rw [hepe] at hepv
  obtain ⟨oc1v, hoc1⟩ := getProp_ok_of_defined (if ((jlookup "confidence" ds).elim RVal.undefined ofJson).truthy then ((jlookup "confidence" ds).elim RVal.undefined ofJson) else if ((jlookup "detection_confidence" ds).elim RVal.undefined ofJson).truthy then ((jlookup "detection_confidence" ds).elim RVal.undefined ofJson) else RVal.obj [])
      (ifChain2_defined ((jlookup "confidence" ds).elim RVal.undefined ofJson) ((jlookup "detection_confidence" ds).elim RVal.undefined ofJson)).1 (ifChain2_defined ((jlookup "confidence" ds).elim RVal.undefined ofJson) ((jlookup "detection_confidence" ds).elim RVal.undefined ofJson)).2 "overall_confidence"
  obtain ⟨dcv, hdc⟩ := getProp_ok_of_defined (if ((jlookup "confidence" ds).elim RVal.undefined ofJson).truthy then ((jlookup "confidence" ds).elim RVal.undefined ofJson) else if ((jlookup "detection_confidence" ds).elim RVal.undefined ofJson).truthy then ((jlookup "detection_confidence" ds).elim RVal.undefined ofJson) else RVal.obj [])
      (ifChain2_defined ((jlookup "confidence" ds).elim RVal.undefined ofJson) ((jlookup "detection_confidence" ds).elim RVal.undefined ofJson)).1 (ifChain2_defined ((jlookup "confidence" ds).elim RVal.undefined ofJson) ((jlookup "detection_confidence" ds).elim RVal.undefined ofJson)).2 "dimension_confidence"
  obtain ⟨dtv, hdt⟩ := getProp_ok_of_defined (if ((jlookup "confidence" ds).elim RVal.undefined ofJson).truthy then ((jlookup "confidence" ds).elim RVal.undefined ofJson) else if ((jlookup "detection_confidence" ds).elim RVal.undefined ofJson).truthy then ((jlookup "detection_confidence" ds).elim RVal.undefined ofJson) else RVal.obj [])
      (ifChain2_defined ((jlookup "confidence" ds).elim RVal.undefined ofJson) ((jlookup "detection_confidence" ds).elim RVal.undefined ofJson)).1 (ifChain2_defined ((jlookup "confidence" ds).elim RVal.undefined ofJson) ((jlookup "detection_confidence" ds).elim RVal.undefined ofJson)).2 "detection_confidence"
  obtain ⟨vsv, hvs⟩ := getProp_ok_of_defined (if ((jlookup "confidence" ds).elim RVal.undefined ofJson).truthy then ((jlookup "confidence" ds).elim RVal.undefined ofJson) else if ((jlookup "detection_confidence" ds).elim RVal.undefined ofJson).truthy then ((jlookup "detection_confidence" ds).elim RVal.undefined ofJson) else RVal.obj [])
      (ifChain2_defined ((jlookup "confidence" ds).elim RVal.undefined ofJson) ((jlookup "detection_confidence" ds).elim RVal.undefined ofJson)).1 (ifChain2_defined ((jlookup "confidence" ds).elim RVal.undefined ofJson) ((jlookup "detection_confidence" ds).elim RVal.undefined ofJson)).2 "variance_score"
  have hfin0 : ∀ x, (if oc1v.truthy then oc1v else if (if ((jlookup "confidence" ds).elim RVal.undefined ofJson).truthy then ((jlookup "confidence" ds).elim RVal.undefined ofJson) else if ((jlookup "detection_confidence" ds).elim RVal.undefined ofJson).truthy then ((jlookup "detection_confidence" ds).elim RVal.undefined ofJson) else RVal.obj []).truthy then (if ((jlookup "confidence" ds).elim RVal.undefined ofJson).truthy then ((jlookup "confidence" ds).elim RVal.undefined ofJson) else if ((jlookup "detection_confidence" ds).elim RVal.undefined ofJson).truthy then ((jlookup "detection_confidence" ds).elim RVal.undefined ofJson) else RVal.obj []) else RVal.num (.fin 0)) = RVal.num x → ∃ q, x = JNum.fin q := by
    intro x hx
    by_cases hb1 : oc1v.truthy = true
    · rw [if_pos hb1] at hx
      exact getProp_num_fin _ _ _ hoc1 x hx
    · rw [if_neg hb1] at hx
      by_cases hb2 : ((if ((jlookup "confidence" ds).elim RVal.undefined ofJson).truthy then ((jlookup "confidence" ds).elim RVal.undefined ofJson) else if ((jlookup "detection_confidence" ds).elim RVal.undefined ofJson).truthy then ((jlookup "detection_confidence" ds).elim RVal.undefined ofJson) else RVal.obj [])).truthy = true
      · rw [if_pos hb2] at hx
        by_cases hb3 : (((jlookup "confidence" ds).elim RVal.undefined ofJson)).truthy = true
        · rw [if_pos hb3] at hx
          exact elim_num_fin _ x hx
        · rw [if_neg hb3] at hx
          by_cases hb4 : (((jlookup "detection_confidence" ds).elim RVal.undefined ofJson)).truthy = true
          · rw [if_pos hb4] at hx
            exact elim_num_fin _ x hx
          · rw [if_neg hb4] at hx
            exact absurd hx (by simp)
      · rw [if_neg hb2] at hx
        exact ⟨0, (RVal.num.inj hx).symm⟩
  obtain ⟨qoc, hoverall⟩ := overallStep_fin ds (if oc1v.truthy then oc1v else if (if ((jlookup "confidence" ds).elim RVal.undefined ofJson).truthy then ((jlookup "confidence" ds).elim RVal.undefined ofJson) else if ((jlookup "detection_confidence" ds).elim RVal.undefined ofJson).truthy then ((jlookup "detection_confidence" ds).elim RVal.undefined ofJson) else RVal.obj []).truthy then (if ((jlookup "confidence" ds).elim RVal.undefined ofJson).truthy then ((jlookup "confidence" ds).elim RVal.undefined ofJson) else if ((jlookup "detection_confidence" ds).elim RVal.undefined ofJson).truthy then ((jlookup "detection_confidence" ds).elim RVal.undefined ofJson) else RVal.obj []) else RVal.num (.fin 0)) hfin0
  refine ⟨{ percent := JNum.fin ((⌊qoc * 100 + 1/2⌋ : ℤ) : ℚ), level := (specPercentBand ⌊qoc * 100 + 1/2⌋).1, color := (specPercentBand ⌊qoc * 100 + 1/2⌋).2.1, expectedError := (specPercentBand ⌊qoc * 100 + 1/2⌋).2.2, dimensionConfidence := if dcv.truthy then dcv else RVal.num (.fin qoc), detectionConfidence := if dtv.truthy then dtv else RVal.num (.fin qoc), varianceScore := if vsv.truthy then vsv else RVal.num (.fin qoc) }, ⌊qoc * 100 + 1/2⌋, ?_, rfl, rfl, rfl, rfl⟩
  simp only [getProp_obj, except_bind_ok, except_pure_eq_ok, ite_ok] at hoverall
  simp only [videoConfidence, orElseE, getProp_obj, except_bind_ok, except_pure_eq_ok, ite_ok,
    hdims, hoc1]
  rw [hoverall]
  simp only [except_bind_ok, hdc, hdt, hvs, hvd, hepv]
  simp [RVal.isUndefined, jsMul, toNumber, JNum.mul, JNum.round, JNum.le]
  generalize ⌊qoc * 100 + 2⁻¹⌋ = z
  by_cases h90 : (90 : ℤ) ≤ z
  · have h90q : (90 : ℚ) ≤ (z : ℚ) := by exact_mod_cast h90
    simp [specPercentBand, h90, h90q]
  · have h90q : ¬ (90 : ℚ) ≤ (z : ℚ) := by exact_mod_cast h90
    by_cases h75 : (75 : ℤ) ≤ z
    · have h75q : (75 : ℚ) ≤ (z : ℚ) := by exact_mod_cast h75
      simp [specPercentBand, h90, h90q, h75, h75q]
    · have h75q : ¬ (75 : ℚ) ≤ (z : ℚ) := by exact_mod_cast h75
      by_cases h60 : (60 : ℤ) ≤ z
      · have h60q : (60 : ℚ) ≤ (z : ℚ) := by exact_mod_cast h60
        simp [specPercentBand, h90, h90q, h75, h75q, h60, h60q]
      · have h60q : ¬ (60 : ℚ) ≤ (z : ℚ) := by exact_mod_cast h60
        by_cases h40 : (40 : ℤ) ≤ z
        · have h40q : (40 : ℚ) ≤ (z : ℚ) := by exact_mod_cast h40
          simp [specPercentBand, h90, h90q, h75, h75q, h60, h60q, h40, h40q]
        · have h40q : ¬ (40 : ℚ) ≤ (z : ℚ) := by exact_mod_cast h40
          simp [specPercentBand, h90, h90q, h75, h75q, h60, h60q, h40, h40q]

/-- C4: for every video response body the two confidence mappings are
mutually exclusive, with variance data taking precedence.  Whenever
the resolution of `dimensions.variance.error_percentage` (factored
verbatim in `videoErrorPercentage`) yields a number `e`, the result
level, color and expected-error string come from the four-band
variance mapping `specVarianceBand` (error ≤5% Excellent, ≤8% Good,
≤15% Medium, else Low), independently of the confidence percentage;
whenever it yields `undefined`, the percent is an integer and the
level, color and expected-error string come from the percentage band
mapping `specPercentBand`. -/
theorem C4_prop :
    (∀ (ds : List (String × JValue)) (e : ℚ),
       videoErrorPercentage (RVal.obj ds) = .ok (RVal.num (.fin e)) →
       ∃ c, videoConfidence (RVal.obj ds) = .ok c ∧
         c.level = (specVarianceBand e).1 ∧
         c.color = (specVarianceBand e).2 ∧
         c.expectedError = "±" ++ finToFixed e 1 ++ "%") ∧
    (∀ ds : List (String × JValue),
       videoErrorPercentage (RVal.obj ds) = .ok RVal.undefined →
       ∃ c, ∃ z : ℤ, videoConfidence (RVal.obj ds) = .ok c ∧
         c.percent = JNum.fin (z : ℚ) ∧
         c.level = (specPercentBand z).1 ∧
         c.color = (specPercentBand z).2.1 ∧
         c.expectedError = (specPercentBand z).2.2) :=
  ⟨videoConfVariancePath, videoConfPercentPath⟩

/-- C4 witness: a body whose only content is
`dimensions.variance.error_percentage = 20` — no confidence block at
all — still takes the variance band ("Low"), and a body with only
`confidence.overall_confidence = 0.92` and no variance takes the
percentage mapping. -/
theorem C4_witness :
    (videoErrorPercentage (RVal.obj [("dimensions", JValue.obj [("variance",
        JValue.obj [("error_percentage", JValue.num 20)])])]) =
       .ok (RVal.num (.fin 20)) ∧
     ∃ c, videoConfidence (RVal.obj [("dimensions", JValue.obj [("variance",
        JValue.obj [("error_percentage", JValue.num 20)])])]) = .ok c ∧
       c.level = (specVarianceBand 20).1 ∧
       c.color = (specVarianceBand 20).2 ∧
       c.expectedError = "±" ++ finToFixed 20 1 ++ "%") ∧
    (videoErrorPercentage (RVal.obj [("confidence", JValue.obj [("overall_confidence",
        JValue.num (92/100))])]) = .ok RVal.undefined ∧
     ∃ c, ∃ z : ℤ, videoConfidence (RVal.obj [("confidence", JValue.obj [("overall_confidence",
        JValue.num (92/100))])]) = .ok c ∧
       c.percent = JNum.fin (z : ℚ) ∧
       c.level = (specPercentBand z).1 ∧
       c.color = (specPercentBand z).2.1 ∧
       c.expectedError = (specPercentBand z).2.2) := by
  refine ⟨⟨rfl, C4_prop.1 _ 20 rfl⟩, rfl, C4_prop.2 _ rfl⟩

/-- C2 witness: the concrete body `{total_paintable_area: 400}`. -/
theorem C2_witness :
    jlookup "rooms" [("total_paintable_area", JValue.num 400)] = none ∧
    jlookup "dimensions" [("total_paintable_area", JValue.num 400)] = none ∧
    jlookup "total_paintable_area" [("total_paintable_area", JValue.num 400)] =
      some (JValue.num 400) ∧
    imgComputeDims (RVal.obj [("total_paintable_area", JValue.num 400)]) =
      .ok { length := .num (.fin 40), width := .num (.fin 40), height := .num (.fin 10) } := by
  refine ⟨rfl, rfl, rfl, ?_⟩
  exact C2_prop [("total_paintable_area", JValue.num 400)] rfl rfl rfl

end PaintEstimator
